import Mathlib

/-!
# Verification of `tenant_bootstrap` (src/tenant_bootstrap/setup.py, usage_limits.py)

A shallow embedding of the repository's two modules.  The host framework
(frappe) is modelled as an explicit `World` state: the site configuration
file, the framework cache entry, the database tables the code touches, and
a set of fault flags describing which external operations raise.  Python
functions that can raise are embedded into a state-plus-exception monad
`M α = World → Except PyExc α × World`; an exception carries its `str(e)`
form.  Console `print` calls are I/O with no observable effect on the
state the claims mention and are not modelled.
-/

namespace TenantBootstrap

/-- A scalar Python/JSON value as used by this code base (strings, ints,
bools, `None`, and floats).  Floats carry an exact rational payload: the
code never does float arithmetic, it only coerces and stores values. -/
inductive PyVal where
  | none
  | bool (b : Bool)
  | int (n : Int)
  | float (q : Rat)
  | str (s : String)
  deriving Repr, DecidableEq

/-- A JSON value stored in `site_config.json` / returned by the entry
points: either a scalar or a (one-level) string-keyed object.  The only
object this code ever writes is the plan-limits dict, whose values are
scalars. -/
inductive SCVal where
  | prim (p : PyVal)
  | dict (d : List (String × PyVal))
  deriving Repr, DecidableEq

/-- Python truthiness of a scalar. -/
def PyVal.truthy : PyVal → Bool
  | .none => false
  | .bool b => b
  | .int n => n != 0
  | .float q => q != 0
  | .str s => s != ""

/-- Python truthiness of a JSON value (a dict is truthy iff non-empty). -/
def SCVal.truthy : SCVal → Bool
  | .prim p => p.truthy
  | .dict d => !d.isEmpty

/-- `str(v)` for a scalar, as used in f-strings and `.format`. -/
def PyVal.toStr : PyVal → String
  | .none => "None"
  | .bool b => if b then "True" else "False"
  | .int n => toString n
  | .float q => toString q
  | .str s => s

/-- A Python exception, carrying its `str(e)` form.  `validationError` is
`frappe.throw`'s user-facing `frappe.ValidationError` (message plus title);
`err` is any other exception. -/
inductive PyExc where
  | err (msg : String)
  | validationError (msg : String) (title : String)
  deriving Repr, DecidableEq

/-- `str(e)`. -/
def PyExc.toMsg : PyExc → String
  | .err m => m
  | .validationError m _ => m

/-- Association-list lookup by key (first match), mirroring access into a
parsed JSON object / Python dict without duplicate keys. -/
def lookupKey [DecidableEq κ] : List (κ × α) → κ → Option α
  | [], _ => Option.none
  | (k', v) :: rest, k => if k' = k then some v else lookupKey rest k

/-- `d[k] = v` on an association list: replaces the first binding of `k`
or appends one. -/
def setKey [DecidableEq κ] : List (κ × α) → κ → α → List (κ × α)
  | [], k, v => [(k, v)]
  | (k', v') :: rest, k, v =>
      if k' = k then (k, v) :: rest else (k', v') :: setKey rest k v

/-- A calendar date (used for `posting_date` / `today`). -/
structure Date where
  y : Int
  m : Int
  d : Int
  deriving Repr, DecidableEq

/-- Date comparison (lexicographic year, month, day). -/
def Date.le (a b : Date) : Bool :=
  decide (a.y < b.y) ||
    (a.y == b.y && (decide (a.m < b.m) || (a.m == b.m && decide (a.d ≤ b.d))))

/-- Gregorian leap year. -/
def isLeap (y : Int) : Bool :=
  (y % 4 == 0 && y % 100 != 0) || (y % 400 == 0)

/-- Number of days of month `m` of year `y` (as `frappe.utils.get_last_day`). -/
def daysInMonth (y m : Int) : Int :=
  if m == 2 then (if isLeap y then 29 else 28)
  else if m == 4 || m == 6 || m == 9 || m == 11 then 30
  else 31

/-- `frappe.utils.get_first_day(today)`. -/
def firstDayOf (t : Date) : Date := ⟨t.y, t.m, 1⟩

/-- `frappe.utils.get_last_day(today)`. -/
def lastDayOf (t : Date) : Date := ⟨t.y, t.m, daysInMonth t.y t.m⟩

/-- A `User` record with the attributes this repository reads or writes. -/
structure UserRec where
  name : PyVal
  enabled : Bool
  userType : String
  roles : List String
  deriving Repr, DecidableEq

/-- A `Sales Invoice` record with the attributes the invoice guard reads. -/
structure InvoiceRec where
  name : PyVal
  docstatus : Int
  postingDate : Date
  deriving Repr, DecidableEq

/-- Fault flags: which external framework/OS operations raise when called.
They are environment behaviour, constant during a run. -/
structure Faults where
  cacheOk : Bool
  fileOk : Bool
  setSingleFails : Bool
  insertWarehouseFails : Bool
  insertCompanyFails : Bool
  companyInsertNoop : Bool
  insertFiscalYearFails : Bool
  erpSaveFails : Bool
  gdSaveFails : Bool
  ssSaveFails : Bool
  insertUserFails : Bool
  updatePasswordFails : Bool
  adminPasswordFails : Bool
  deriving Repr, DecidableEq

/-- The tenant-site world: everything the two modules read or write. -/
structure World where
  flags : Faults
  /-- contents of `site_config.json` -/
  file : List (String × SCVal)
  /-- `frappe.conf`, the in-process snapshot of the site config -/
  conf : List (String × SCVal)
  /-- the cache value under the key `saas_plan_limits` -/
  cacheLimits : Option SCVal
  /-- messages recorded by `frappe.log_error` -/
  errorLog : List String
  /-- single-doctype fields, keyed by (doctype, fieldname); covers
  `System Settings`, `ERPNext Settings`, `Global Defaults`, `Stock Settings` -/
  singles : List ((String × String) × PyVal)
  /-- `Installed Application` rows: (app_name, is_setup_complete) -/
  installedApps : List (String × Bool)
  /-- `frappe.db.set_default` store -/
  defaults : List (String × PyVal)
  warehouseTypes : List String
  /-- names of existing `Company` records -/
  companies : List PyVal
  /-- names of existing `Fiscal Year` records -/
  fiscalYears : List PyVal
  users : List UserRec
  customers : List PyVal
  suppliers : List PyVal
  invoices : List InvoiceRec
  /-- names of existing `DocType` records -/
  docTypes : List String
  /-- password store, keyed by user name -/
  passwords : List (PyVal × PyVal)
  /-- `frappe.utils.today()` -/
  today : Date
  ignorePermissions : Bool
  inSetupWizard : Bool
  deriving Repr, DecidableEq

/-- The embedding monad: state (`World`) plus Python exceptions. -/
def M (α : Type) : Type := World → Except PyExc α × World

/-- `pure` for `M`. -/
def pureM (a : α) : M α := fun w => (Except.ok a, w)

/-- `bind` for `M`; an exception short-circuits but keeps the state
mutated so far (Python mutations before a raise persist). -/
def bindM (m : M α) (k : α → M β) : M β := fun w =>
  match m w with
  | (Except.ok a, w') => k a w'
  | (Except.error e, w') => (Except.error e, w')

instance : Monad M where
  pure := pureM
  bind := bindM

/-- `try ... except ...`. -/
def tryCatchM (m : M α) (h : PyExc → M α) : M α := fun w =>
  match m w with
  | (Except.ok a, w') => (Except.ok a, w')
  | (Except.error e, w') => h e w'

/-- `raise e`. -/
def raiseM (e : PyExc) : M α := fun w => (Except.error e, w)

/-- Read the world. -/
def getW : M World := fun w => (Except.ok w, w)

/-- Mutate the world. -/
def modifyW (f : World → World) : M Unit := fun w => (Except.ok (), f w)

/-- Lift a pure fallible computation. -/
def liftE (e : Except PyExc α) : M α := fun w => (e, w)

@[simp] theorem bind_eq_bindM (m : M α) (k : α → M β) : m >>= k = bindM m k := rfl

@[simp] theorem pure_eq_pureM (a : α) : (pure a : M α) = pureM a := rfl

@[simp] theorem bindM_app (m : M α) (k : α → M β) (w : World) :
    bindM m k w =
      match m w with
      | (Except.ok a, w') => k a w'
      | (Except.error e, w') => (Except.error e, w') := rfl

@[simp] theorem pureM_app (a : α) (w : World) : pureM a w = (Except.ok a, w) := rfl

@[simp] theorem tryCatchM_app (m : M α) (h : PyExc → M α) (w : World) :
    tryCatchM m h w =
      match m w with
      | (Except.ok a, w') => (Except.ok a, w')
      | (Except.error e, w') => h e w' := rfl

@[simp] theorem raiseM_app (e : PyExc) (w : World) :
    (raiseM e : M α) w = (Except.error e, w) := rfl

@[simp] theorem getW_app (w : World) : getW w = (Except.ok w, w) := rfl

@[simp] theorem modifyW_app (f : World → World) (w : World) :
    modifyW f w = (Except.ok (), f w) := rfl

@[simp] theorem liftE_app (e : Except PyExc α) (w : World) : liftE e w = (e, w) := rfl

/-! ## Framework primitives -/

/-- Exception used when the cache backend is unavailable. -/
def cacheExc : PyExc := PyExc.err "RedisConnectionError: cache unavailable"

/-- Exception used when `site_config.json` cannot be read or written. -/
def fileExc : PyExc := PyExc.err "OSError: cannot access site_config.json"

/-- `frappe.cache().get_value("saas_plan_limits")`. -/
def cacheGetLimits : M (Option SCVal) := do
  let w ← getW
  if w.flags.cacheOk then pureM w.cacheLimits else raiseM cacheExc

/-- `frappe.cache().set_value("saas_plan_limits", v)`. -/
def cacheSetLimits (v : SCVal) : M Unit := do
  let w ← getW
  if w.flags.cacheOk then modifyW (fun w' => { w' with cacheLimits := some v })
  else raiseM cacheExc

/-- `open(site_config_path); json.load`. -/
def readSiteConfig : M (List (String × SCVal)) := do
  let w ← getW
  if w.flags.fileOk then pureM w.file else raiseM fileExc

/-- `open(site_config_path, "w"); json.dump(cfg)`. -/
def writeSiteConfig (cfg : List (String × SCVal)) : M Unit := do
  let w ← getW
  if w.flags.fileOk then modifyW (fun w' => { w' with file := cfg })
  else raiseM fileExc

/-- `frappe.log_error(msg)`. -/
def logError (msg : String) : M Unit :=
  modifyW (fun w => { w with errorLog := msg :: w.errorLog })

/-- `frappe.db.commit()` — transaction boundary, no observable effect on
the modelled state. -/
def dbCommit : M Unit := pureM ()

/-! ## usage_limits.py -/

/-- `get_plan_limits` (usage_limits.py lines 14-24). -/
def get_plan_limits : M SCVal := do
  let c ← cacheGetLimits
  let limits0 : SCVal :=
    match c with
    | some v => v
    | Option.none => SCVal.prim PyVal.none
  if limits0.truthy then
    pureM limits0
  else do
    let w ← getW
    let limits1 : SCVal :=
      match lookupKey w.conf "saas_plan_limits" with
      | some v => v
      | Option.none => SCVal.dict []
    if limits1.truthy then do
      cacheSetLimits limits1
      pureM limits1
    else
      pureM (SCVal.dict [])

/-- `set_plan_limits` (usage_limits.py lines 27-43): cache write, then a
guarded mirror into `site_config.json` whose failure is logged and
swallowed. -/
def set_plan_limits (limits : List (String × PyVal)) : M Unit := do
  cacheSetLimits (SCVal.dict limits)
  tryCatchM
    (do
      let cfg ← readSiteConfig
      writeSiteConfig (setKey cfg "saas_plan_limits" (SCVal.dict limits)))
    (fun e => logError ("Failed to save plan limits to site config: " ++ e.toMsg))

/-- `limits.get(k, 0)` on the value returned by `get_plan_limits`; raises
`AttributeError` when that value is not a dict. -/
def scGet (v : SCVal) (k : String) (dflt : PyVal) : Except PyExc PyVal :=
  match v with
  | .dict d =>
      Except.ok
        (match lookupKey d k with
         | some x => x
         | Option.none => dflt)
  | .prim _ => Except.error (PyExc.err ("AttributeError: object has no attribute get " ++ k))

/-- Python `count >= limit` between an int count and a stored limit value;
raises `TypeError` when the limit is not a number. -/
def pyGe (n : Int) : PyVal → Except PyExc Bool
  | .int m => Except.ok (decide (m ≤ n))
  | .float q => Except.ok (decide (q ≤ (n : Rat)))
  | .bool b => Except.ok (decide ((if b then (1 : Int) else 0) ≤ n))
  | .str _ => Except.error (PyExc.err "TypeError: not supported between int and str")
  | .none => Except.error (PyExc.err "TypeError: not supported between int and NoneType")

/-- The `doc` argument of `validate_user_limit`. -/
structure UserDoc where
  name : PyVal
  userType : String
  deriving Repr, DecidableEq

/-- The `doc` argument of the customer/supplier/company guards. -/
structure NamedDoc where
  name : PyVal
  isNew : Bool
  deriving Repr, DecidableEq

/-- The `doc` argument of `validate_invoice_limit`. -/
structure InvDoc where
  name : PyVal
  docstatus : Int
  deriving Repr, DecidableEq

/-- `frappe.db.count("User", filters=...)` in `validate_user_limit`:
enabled System Users excluding Administrator, Guest and the document. -/
def countUsersExcluding (w : World) (excl : PyVal) : Nat :=
  (w.users.filter (fun u =>
    u.enabled && u.userType == "System User"
      && !(u.name == PyVal.str "Administrator")
      && !(u.name == PyVal.str "Guest")
      && !(u.name == excl))).length

/-- `frappe.db.count` with an optional `name != excl` filter. -/
def countExcluding (names : List PyVal) (excl : Option PyVal) : Nat :=
  (names.filter (fun n =>
    match excl with
    | some e => !(n == e)
    | Option.none => true)).length

/-- The name filter the customer/supplier/company guards build:
absent for a new document, `["!=", doc.name]` otherwise. -/
def exclOf (doc : NamedDoc) : Option PyVal :=
  if doc.isNew then Option.none else some doc.name

/-- `frappe.db.count("Sales Invoice", ...)` in `validate_invoice_limit`:
submitted invoices of the current month excluding the document. -/
def countInvoicesThisMonth (w : World) (excl : PyVal) : Nat :=
  (w.invoices.filter (fun i =>
    i.docstatus == 1
      && Date.le (firstDayOf w.today) i.postingDate
      && Date.le i.postingDate (lastDayOf w.today)
      && !(i.name == excl))).length

/-- The message `validate_user_limit` throws (`.format(max_users)`). -/
def userLimitMsg (v : PyVal) : String :=
  "You have reached the maximum number of users (" ++ v.toStr ++
    ") allowed in your plan. Please upgrade your plan to add more users."

/-- The message `validate_customer_limit` throws. -/
def customerLimitMsg (v : PyVal) : String :=
  "You have reached the maximum number of customers (" ++ v.toStr ++
    ") allowed in your plan. Please upgrade your plan to add more customers."

/-- The message `validate_supplier_limit` throws. -/
def supplierLimitMsg (v : PyVal) : String :=
  "You have reached the maximum number of suppliers (" ++ v.toStr ++
    ") allowed in your plan. Please upgrade your plan to add more suppliers."

/-- The message `validate_company_limit` throws. -/
def companyLimitMsg (v : PyVal) : String :=
  "You have reached the maximum number of companies (" ++ v.toStr ++
    ") allowed in your plan. Please upgrade your plan to add more companies."

/-- The message `validate_invoice_limit` throws. -/
def invoiceLimitMsg (v : PyVal) : String :=
  "You have reached the maximum number of invoices (" ++ v.toStr ++
    ") allowed per month in your plan. Please upgrade your plan to create more invoices."

/-- `validate_user_limit` (usage_limits.py lines 46-73). -/
def validate_user_limit (doc : UserDoc) : M Unit := do
  if doc.userType != "System User" then
    pureM ()
  else if doc.name == PyVal.str "Administrator" || doc.name == PyVal.str "Guest" then
    pureM ()
  else do
    let limits ← get_plan_limits
    let maxUsers ← liftE (scGet limits "max_users" (PyVal.int 0))
    if !maxUsers.truthy then
      pureM ()
    else do
      let w ← getW
      let current : Int := (countUsersExcluding w doc.name : Int)
      let ge ← liftE (pyGe current maxUsers)
      if ge then
        raiseM (PyExc.validationError (userLimitMsg maxUsers) "User Limit Reached")
      else
        pureM ()

/-- `validate_customer_limit` (usage_limits.py lines 76-97). -/
def validate_customer_limit (doc : NamedDoc) : M Unit := do
  let limits ← get_plan_limits
  let maxCustomers ← liftE (scGet limits "max_customers" (PyVal.int 0))
  if !maxCustomers.truthy then
    pureM ()
  else do
    let w ← getW
    let current : Int := (countExcluding w.customers (exclOf doc) : Int)
    let ge ← liftE (pyGe current maxCustomers)
    if ge then
      raiseM (PyExc.validationError (customerLimitMsg maxCustomers) "Customer Limit Reached")
    else
      pureM ()

/-- `validate_supplier_limit` (usage_limits.py lines 100-121). -/
def validate_supplier_limit (doc : NamedDoc) : M Unit := do
  let limits ← get_plan_limits
  let maxSuppliers ← liftE (scGet limits "max_suppliers" (PyVal.int 0))
  if !maxSuppliers.truthy then
    pureM ()
  else do
    let w ← getW
    let current : Int := (countExcluding w.suppliers (exclOf doc) : Int)
    let ge ← liftE (pyGe current maxSuppliers)
    if ge then
      raiseM (PyExc.validationError (supplierLimitMsg maxSuppliers) "Supplier Limit Reached")
    else
      pureM ()

/-- `validate_company_limit` (usage_limits.py lines 124-145). -/
def validate_company_limit (doc : NamedDoc) : M Unit := do
  let limits ← get_plan_limits
  let maxCompanies ← liftE (scGet limits "max_companies" (PyVal.int 0))
  if !maxCompanies.truthy then
    pureM ()
  else do
    let w ← getW
    let current : Int := (countExcluding w.companies (exclOf doc) : Int)
    let ge ← liftE (pyGe current maxCompanies)
    if ge then
      raiseM (PyExc.validationError (companyLimitMsg maxCompanies) "Company Limit Reached")
    else
      pureM ()

/-- `validate_invoice_limit` (usage_limits.py lines 148-173). -/
def validate_invoice_limit (doc : InvDoc) : M Unit := do
  if doc.docstatus != 1 then
    pureM ()
  else do
    let limits ← get_plan_limits
    let maxInvoices ← liftE (scGet limits "max_invoices_per_month" (PyVal.int 0))
    if !maxInvoices.truthy then
      pureM ()
    else do
      let w ← getW
      let current : Int := (countInvoicesThisMonth w doc.name : Int)
      let ge ← liftE (pyGe current maxInvoices)
      if ge then
        raiseM (PyExc.validationError (invoiceLimitMsg maxInvoices) "Monthly Invoice Limit Reached")
      else
        pureM ()

/-! ## HTTP endpoints of usage_limits.py -/

/-- `isNumeric v` holds for Python numbers (int/float), the argument class
claim C4 quantifies over. -/
def isNumeric : PyVal → Bool
  | .int _ => true
  | .float _ => true
  | _ => false

/-- Python `int()` on a float: truncation towards zero. -/
def pyTrunc (q : Rat) : Int := Int.tdiv q.num q.den

/-- Python `int(v)`; raises on `None` and non-numeric strings. -/
def pyIntCoe : PyVal → Except PyExc Int
  | .int n => Except.ok n
  | .float q => Except.ok (pyTrunc q)
  | .bool b => Except.ok (if b then 1 else 0)
  | .str s =>
      match s.toInt? with
      | some n => Except.ok n
      | Option.none => Except.error (PyExc.err ("ValueError: invalid literal for int: " ++ s))
  | .none => Except.error (PyExc.err "TypeError: int() argument must not be None")

/-- Python `float(v)`; raises on `None`; string parsing is modelled for
integer literals only (the claims quantify over numeric arguments). -/
def pyFloatCoe : PyVal → Except PyExc Rat
  | .int n => Except.ok (n : Rat)
  | .float q => Except.ok q
  | .bool b => Except.ok (if b then 1 else 0)
  | .str s =>
      match s.toInt? with
      | some n => Except.ok (n : Rat)
      | Option.none => Except.error (PyExc.err ("ValueError: could not convert string to float: " ++ s))
  | .none => Except.error (PyExc.err "TypeError: float() argument must not be None")

/-- The integer a numeric Python value coerces to. -/
def intOfNum : PyVal → Int
  | .int n => n
  | .float q => pyTrunc q
  | _ => 0

/-- The float a numeric Python value coerces to. -/
def floatOfNum : PyVal → Rat
  | .int n => (n : Rat)
  | .float q => q
  | _ => 0

/-- `int(v) if v else 0`, the coercion pattern of `sync_plan_limits`. -/
def coerceLimitInt (v : PyVal) : Except PyExc Int :=
  if v.truthy then pyIntCoe v else Except.ok 0

/-- `float(v) if v else 0`, for `max_storage_gb`. -/
def coerceLimitFloat (v : PyVal) : Except PyExc Rat :=
  if v.truthy then pyFloatCoe v else Except.ok 0

/-- The coerced limits dict `sync_plan_limits` builds (lines 196-203). -/
def syncLimitsDict (nu nc ns nco ni : Int) (ng : Rat) : List (String × PyVal) :=
  [("max_users", PyVal.int nu),
   ("max_customers", PyVal.int nc),
   ("max_suppliers", PyVal.int ns),
   ("max_companies", PyVal.int nco),
   ("max_invoices_per_month", PyVal.int ni),
   ("max_storage_gb", PyVal.float ng)]

/-- The body of `sync_plan_limits`'s `try` block (lines 195-207). -/
def syncBody (mu mc ms mco mi mg : PyVal) : M (List (String × SCVal)) := do
  let nu ← liftE (coerceLimitInt mu)
  let nc ← liftE (coerceLimitInt mc)
  let ns ← liftE (coerceLimitInt ms)
  let nco ← liftE (coerceLimitInt mco)
  let ni ← liftE (coerceLimitInt mi)
  let ng ← liftE (coerceLimitFloat mg)
  let limits := syncLimitsDict nu nc ns nco ni ng
  set_plan_limits limits
  pureM [("success", SCVal.prim (PyVal.bool true)),
         ("message", SCVal.prim (PyVal.str "Plan limits updated")),
         ("limits", SCVal.dict limits)]

/-- The failure dict of `sync_plan_limits`'s handler:
`{"success": False, "error": str(e)}` (line 216). -/
def syncFailDict (msg : String) : List (String × SCVal) :=
  [("success", SCVal.prim (PyVal.bool false)), ("error", SCVal.prim (PyVal.str msg))]

/-- `sync_plan_limits` (usage_limits.py lines 176-216). -/
def sync_plan_limits (mu mc ms mco mi mg : PyVal) : M (List (String × SCVal)) :=
  tryCatchM (syncBody mu mc ms mco mi mg)
    (fun e => do
      logError ("Failed to sync plan limits: " ++ e.toMsg)
      pureM (syncFailDict e.toMsg))

/-- `get_current_limits` (usage_limits.py lines 219-230).  Note: the body
is not wrapped in a handler. -/
def get_current_limits : M (List (String × SCVal)) := do
  let l ← get_plan_limits
  pureM [("success", SCVal.prim (PyVal.bool true)), ("limits", l)]

/-! ## setup.py -/

/-- The decoded `config_b64` argument: `Option.none` models a base64 or
JSON decode failure, `some v` the decoded JSON value (which need not be an
object). -/
def ConfigInput : Type := Option SCVal

/-- `json.loads(base64.b64decode(config_b64).decode())`. -/
def decodeConfig (input : ConfigInput) : M SCVal :=
  match input with
  | Option.none => liftE (Except.error (PyExc.err "binascii.Error: invalid base64 / json decode failed"))
  | some v => liftE (Except.ok v)

/-- `config[k]` — `KeyError` when absent, `TypeError` when the decoded
JSON is not an object. -/
def getItem (cfg : SCVal) (k : String) : M PyVal :=
  liftE
    (match cfg with
     | .dict d =>
         match lookupKey d k with
         | some v => Except.ok v
         | Option.none => Except.error (PyExc.err ("KeyError: " ++ k))
     | .prim _ => Except.error (PyExc.err "TypeError: decoded config is not subscriptable"))

/-- `config.get(k, dflt)`. -/
def getItemD (cfg : SCVal) (k : String) (dflt : PyVal) : M PyVal :=
  liftE
    (match cfg with
     | .dict d =>
         match lookupKey d k with
         | some v => Except.ok v
         | Option.none => Except.ok dflt
     | .prim _ => Except.error (PyExc.err "AttributeError: decoded config has no attribute get"))

/-- The eight fields `setup_company` extracts (setup.py lines 50-57). -/
structure SetupCfg where
  companyName : PyVal
  companyAbbr : PyVal
  country : PyVal
  currency : PyVal
  chartOfAccounts : PyVal
  fyName : PyVal
  fyStartDate : PyVal
  fyEndDate : PyVal
  deriving Repr, DecidableEq

/-- Decoding and field extraction of `setup_company` (lines 48-57). -/
def setupParse (input : ConfigInput) : M SetupCfg := do
  let config ← decodeConfig input
  let companyName ← getItem config "company_name"
  let companyAbbr ← getItem config "company_abbr"
  let country ← getItem config "country"
  let currency ← getItem config "currency"
  let chartOfAccounts ← getItemD config "chart_of_accounts" (PyVal.str "Standard")
  let fyName ← getItem config "fy_name"
  let fyStartDate ← getItem config "fy_start_date"
  let fyEndDate ← getItem config "fy_end_date"
  pureM ⟨companyName, companyAbbr, country, currency, chartOfAccounts,
         fyName, fyStartDate, fyEndDate⟩

/-- `frappe.db.set_single_value(doctype, field, v)`. -/
def dbSetSingleValue (doctype field : String) (v : PyVal) : M Unit := do
  let w ← getW
  if w.flags.setSingleFails then
    raiseM (PyExc.err "OperationalError: set_single_value failed")
  else
    modifyW (fun w' => { w' with singles := setKey w'.singles (doctype, field) v })

/-- Step 2b: mark an installed app's `is_setup_complete` when the row
exists (setup.py lines 84-92). -/
def markAppSetupComplete (app : String) : M Unit := do
  let w ← getW
  if w.installedApps.any (fun p => p.1 == app) then
    modifyW (fun w' =>
      { w' with installedApps :=
          w'.installedApps.map (fun p => if p.1 == app then (p.1, true) else p) })
  else
    pureM ()

/-- `frappe.db.set_default(k, v)`. -/
def setDefault (k : String) (v : PyVal) : M Unit :=
  modifyW (fun w => { w with defaults := setKey w.defaults k v })

/-- Step 3: create a Warehouse Type when absent (setup.py lines 102-106). -/
def ensureWarehouseType (wt : String) : M Unit := do
  let w ← getW
  if w.warehouseTypes.contains wt then
    pureM ()
  else if w.flags.insertWarehouseFails then
    raiseM (PyExc.err "ValidationError: warehouse type insert failed")
  else
    modifyW (fun w' => { w' with warehouseTypes := wt :: w'.warehouseTypes })

/-- `company.insert(ignore_permissions=True)` (setup.py line 122).  A noop
flag models an insert that raises nothing yet leaves no persisted record —
the situation the final existence check of `setup_company` guards against.
Attributes other than the name are never read back by this repository and
are not persisted in the model. -/
def insertCompany (name : PyVal) : M Unit := do
  let w ← getW
  if w.flags.insertCompanyFails then
    raiseM (PyExc.err "ValidationError: company insert failed")
  else if w.flags.companyInsertNoop then
    pureM ()
  else
    modifyW (fun w' => { w' with companies := name :: w'.companies })

/-- `fy.insert(ignore_permissions=True)` (setup.py line 149). -/
def insertFiscalYear (name : PyVal) : M Unit := do
  let w ← getW
  if w.flags.insertFiscalYearFails then
    raiseM (PyExc.err "ValidationError: fiscal year insert failed")
  else
    modifyW (fun w' => { w' with fiscalYears := name :: w'.fiscalYears })

/-- `frappe.db.exists("DocType", name)`. -/
def docTypeExists (name : String) : M Bool := do
  let w ← getW
  pureM (w.docTypes.contains name)

/-- Write fields of a single doctype via `get_single`/`save`, raising when
the corresponding save-fault flag is set (steps 6-8 of `setup_company`). -/
def saveSingleDoc (doctype : String) (fields : List (String × PyVal)) (fails : Bool) : M Unit := do
  if fails then
    raiseM (PyExc.err (doctype ++ " save failed"))
  else
    modifyW (fun w =>
      { w with singles := fields.foldl (fun acc p => setKey acc (doctype, p.1) p.2) w.singles })

/-- `frappe.clear_cache()` (step 9): invalidates framework document and
page caches; none of the state this model tracks is documented to be
dropped by it, so it is a no-op here. -/
def clearCache : M Unit := pureM ()

/-- Step 1 of `setup_company` (lines 64-71): rewrite `site_config.json`
with `setup_complete = 1`. -/
def setupStep1 : M Unit := do
  let siteConfig ← readSiteConfig
  writeSiteConfig (setKey siteConfig "setup_complete" (SCVal.prim (PyVal.int 1)))

/-- Step 2 of `setup_company` (lines 74-80): System Settings. -/
def setupStep2 (c : SetupCfg) : M Unit := do
  dbSetSingleValue "System Settings" "setup_complete" (PyVal.int 1)
  dbSetSingleValue "System Settings" "enable_onboarding" (PyVal.int 0)
  dbSetSingleValue "System Settings" "country" c.country
  dbSetSingleValue "System Settings" "language" (PyVal.str "en")
  dbSetSingleValue "System Settings" "time_zone" (PyVal.str "Asia/Kolkata")
  dbCommit

/-- Step 2b (lines 84-93): Installed Application flags. -/
def setupStep2b : M Unit := do
  markAppSetupComplete "frappe"
  markAppSetupComplete "erpnext"
  dbCommit

/-- Step 2c (lines 97-99): desktop home page default. -/
def setupStep2c : M Unit := do
  setDefault "desktop:home_page" (PyVal.str "home")
  dbCommit

/-- Step 3 (lines 102-107): Warehouse Types. -/
def setupStep3 : M Unit := do
  ensureWarehouseType "Transit"
  ensureWarehouseType "Stores"
  ensureWarehouseType "Goods In Transit"
  ensureWarehouseType "Virtual"
  dbCommit

/-- The create-or-default branch of step 4 (lines 111-136). -/
def setupStep4core (c : SetupCfg) : M Unit := do
  let w4 ← getW
  if !(w4.companies.contains c.companyName) then do
    insertCompany c.companyName
    setDefault "company" c.companyName
    setDefault "country" c.country
    setDefault "currency" c.currency
    dbCommit
  else do
    setDefault "company" c.companyName
    setDefault "country" c.country
    setDefault "currency" c.currency
    dbCommit

/-- Step 4 (lines 110-137): Company, bracketed by the setup-wizard flag. -/
def setupStep4 (c : SetupCfg) : M Unit := do
  modifyW (fun w => { w with inSetupWizard := true })
  setupStep4core c
  modifyW (fun w => { w with inSetupWizard := false })

/-- Step 5 (lines 140-156): Fiscal Year. -/
def setupStep5 (c : SetupCfg) : M Unit := do
  let w5 ← getW
  if !(w5.fiscalYears.contains c.fyName) then do
    insertFiscalYear c.fyName
    setDefault "fiscal_year" c.fyName
    dbCommit
  else do
    setDefault "fiscal_year" c.fyName
    dbCommit

/-- Step 6 (lines 159-167): ERPNext Settings, inner try/except prints a
warning and continues. -/
def setupStep6 : M Unit := do
  let e6 ← docTypeExists "ERPNext Settings"
  if e6 then
    tryCatchM
      (do
        let w ← getW
        saveSingleDoc "ERPNext Settings" [("setup_complete", PyVal.int 1)] w.flags.erpSaveFails
        dbCommit)
      (fun _e => pureM ())
  else
    pureM ()

/-- Step 7 (lines 170-181): Global Defaults, guarded like step 6. -/
def setupStep7 (c : SetupCfg) : M Unit := do
  let e7 ← docTypeExists "Global Defaults"
  if e7 then
    tryCatchM
      (do
        let w ← getW
        saveSingleDoc "Global Defaults"
          [("default_company", c.companyName),
           ("current_fiscal_year", c.fyName),
           ("country", c.country),
           ("default_currency", c.currency)] w.flags.gdSaveFails
        dbCommit)
      (fun _e => pureM ())
  else
    pureM ()

/-- Step 8 (lines 184-192): Stock Settings, guarded like step 6. -/
def setupStep8 : M Unit := do
  let e8 ← docTypeExists "Stock Settings"
  if e8 then
    tryCatchM
      (do
        let w ← getW
        saveSingleDoc "Stock Settings" [("stock_uom", PyVal.str "Nos")] w.flags.ssSaveFails
        dbCommit)
      (fun _e => pureM ())
  else
    pureM ()

/-- Steps 2-9 of `setup_company` (lines 73-196). -/
def setupSteps2to9 (c : SetupCfg) : M Unit := do
  setupStep2 c
  setupStep2b
  setupStep2c
  setupStep3
  setupStep4 c
  setupStep5 c
  setupStep6
  setupStep7 c
  setupStep8
  clearCache

/-- The success/failure dict of the final existence check of
`setup_company` (lines 198-204; the Python message quotes the name in the
failure case, quoting omitted). -/
def setupResultDict (found : Bool) (name : PyVal) : List (String × SCVal) :=
  if found then
    [("success", SCVal.prim (PyVal.bool true)),
     ("message", SCVal.prim (PyVal.str ("Company " ++ name.toStr ++ " created successfully")))]
  else
    [("success", SCVal.prim (PyVal.bool false)),
     ("message", SCVal.prim (PyVal.str ("Company " ++ name.toStr ++ " not found after creation")))]

/-- Final verification of `setup_company` (lines 198-204). -/
def setupFinal (companyName : PyVal) : M (List (String × SCVal)) := do
  let w ← getW
  pureM (setupResultDict (w.companies.contains companyName) companyName)

/-- Everything `setup_company` runs before the final existence check,
returning the parsed config. -/
def setupPrefix (input : ConfigInput) : M SetupCfg := do
  let c ← setupParse input
  modifyW (fun w => { w with ignorePermissions := true })
  setupStep1
  setupSteps2to9 c
  pureM c

/-- The body of `setup_company`'s `try` block (lines 46-204). -/
def setupBody (input : ConfigInput) : M (List (String × SCVal)) := do
  let c ← setupPrefix input
  setupFinal c.companyName

/-- The failure dict of the catch-all handlers of setup.py:
`{"success": False, "message": str(e)}`. -/
def failDict (msg : String) : List (String × SCVal) :=
  [("success", SCVal.prim (PyVal.bool false)), ("message", SCVal.prim (PyVal.str msg))]

/-- `setup_company` (setup.py lines 26-209). -/
def setup_company (input : ConfigInput) : M (List (String × SCVal)) :=
  tryCatchM (setupBody input) (fun e => pureM (failDict e.toMsg))

/-! ### create_user -/

/-- `update_password(email, password)` (frappe.utils.password). -/
def updatePassword (email password : PyVal) : M Unit := do
  let w ← getW
  if w.flags.updatePasswordFails then
    raiseM (PyExc.err "ValidationError: update_password failed")
  else
    modifyW (fun w' => { w' with passwords := setKey w'.passwords email password })

/-- `update_password("Administrator", password)` in the guarded trailing
block of `create_user` (lines 280-285). -/
def updateAdminPassword (password : PyVal) : M Unit := do
  let w ← getW
  if w.flags.adminPasswordFails then
    raiseM (PyExc.err "ValidationError: admin update_password failed")
  else
    modifyW (fun w' =>
      { w' with passwords := setKey w'.passwords (PyVal.str "Administrator") password })

/-- `user.insert(ignore_permissions=True)` for a new System User
(lines 259-268; `send_welcome_email=0` is transient and not modelled). -/
def insertUser (email : PyVal) : M Unit := do
  let w ← getW
  if w.flags.insertUserFails then
    raiseM (PyExc.err "ValidationError: user insert failed")
  else
    modifyW (fun w' =>
      { w' with users := ⟨email, true, "System User", []⟩ :: w'.users })

/-- Enable an existing user (`user.enabled = 1; user.save`). -/
def enableUser (email : PyVal) : M Unit :=
  modifyW (fun w =>
    { w with users := w.users.map (fun u => if u.name == email then { u with enabled := true } else u) })

/-- `user.add_roles(role)` when the role is missing. -/
def addRoleTo (email : PyVal) (role : String) : M Unit :=
  modifyW (fun w =>
    { w with users := w.users.map (fun u =>
        if u.name == email && !(u.roles.contains role) then { u with roles := role :: u.roles } else u) })

/-- The body of `create_user`'s `try` block (setup.py lines 228-287). -/
def createUserBody (input : ConfigInput) : M (List (String × SCVal)) := do
  let config ← decodeConfig input
  let email ← getItem config "email"
  let _firstName ← getItemD config "first_name" (PyVal.str "User")
  let _lastName ← getItemD config "last_name" (PyVal.str "")
  let password ← getItem config "password"
  modifyW (fun w => { w with ignorePermissions := true })
  let w ← getW
  if w.users.any (fun u => u.name == email) then do
    -- lines 244-256: update path, returns early
    updatePassword email password
    dbCommit
    enableUser email
    addRoleTo email "System Manager"
    dbCommit
    pureM [("success", SCVal.prim (PyVal.bool true)),
           ("message", SCVal.prim (PyVal.str ("User " ++ email.toStr ++ " updated")))]
  else do
    -- lines 257-287: create path, then the guarded Administrator-password block
    insertUser email
    updatePassword email password
    dbCommit
    addRoleTo email "System Manager"
    dbCommit
    tryCatchM
      (do
        updateAdminPassword password
        dbCommit)
      (fun _e => pureM ())
    pureM [("success", SCVal.prim (PyVal.bool true)),
           ("message", SCVal.prim (PyVal.str ("User " ++ email.toStr ++ " created/updated")))]

/-- `create_user` (setup.py lines 212-292). -/
def create_user (input : ConfigInput) : M (List (String × SCVal)) :=
  tryCatchM (createUserBody input) (fun e => pureM (failDict e.toMsg))

instance [DecidableEq ε] [DecidableEq α] : DecidableEq (Except ε α) := fun x y =>
  match x, y with
  | .ok a, .ok b =>
      if h : a = b then Decidable.isTrue (by rw [h])
      else Decidable.isFalse (by intro hc; injection hc; contradiction)
  | .error e, .error f =>
      if h : e = f then Decidable.isTrue (by rw [h])
      else Decidable.isFalse (by intro hc; injection hc; contradiction)
  | .ok _, .error _ => Decidable.isFalse (by intro hc; cases hc)
  | .error _, .ok _ => Decidable.isFalse (by intro hc; cases hc)

/-! ## Semantic predicates used by the theorems -/

/-- A computation that never changes the contents of `site_config.json`,
on any path, including paths that raise. -/
def PreservesFile (m : M α) : Prop := ∀ w, ((m w).2).file = w.file

/-- A computation with no effect on the world at all. -/
def StateInv (m : M α) : Prop := ∀ w, (m w).2 = w

/-- The result shape `{"success": bool, "message": str}` of the
remote-execution entry points. -/
def resultShape (d : List (String × SCVal)) : Prop :=
  ∃ b m, d = [("success", SCVal.prim (PyVal.bool b)), ("message", SCVal.prim (PyVal.str m))]

/-- A computation all of whose normally-returned dicts have the
`{"success": bool, "message": str}` shape. -/
def ShapeOK (m : M (List (String × SCVal))) : Prop :=
  ∀ w d w', m w = (Except.ok d, w') → resultShape d

/-! ## Concrete fixtures (used by witnesses and counterexamples) -/

/-- Fault flags of a fully healthy environment. -/
def okFlags : Faults :=
  ⟨true, true, false, false, false, false, false, false, false, false, false, false, false⟩

/-- A minimal healthy world. -/
def baseWorld : World :=
  { flags := okFlags
    file := []
    conf := []
    cacheLimits := Option.none
    errorLog := []
    singles := []
    installedApps := []
    defaults := []
    warehouseTypes := []
    companies := []
    fiscalYears := []
    users := []
    customers := []
    suppliers := []
    invoices := []
    docTypes := []
    passwords := []
    today := ⟨2026, 10, 12⟩
    ignorePermissions := false
    inSetupWizard := false }

/-- A plan-limits dict with every quota set to a small positive value. -/
def quotaDict : List (String × PyVal) :=
  [("max_users", PyVal.int 3),
   ("max_customers", PyVal.int 1),
   ("max_suppliers", PyVal.int 1),
   ("max_companies", PyVal.int 1),
   ("max_invoices_per_month", PyVal.int 1)]

/-- A world at quota: `max_users=3` with 3 qualifying users, and one
existing customer, supplier, company and submitted current-month invoice
against limits of 1. -/
def wQuota : World :=
  { baseWorld with
    cacheLimits := some (SCVal.dict quotaDict)
    users :=
      [⟨PyVal.str "Administrator", true, "System User", []⟩,
       ⟨PyVal.str "a@x.com", true, "System User", []⟩,
       ⟨PyVal.str "b@x.com", true, "System User", []⟩,
       ⟨PyVal.str "c@x.com", true, "System User", []⟩,
       ⟨PyVal.str "w@x.com", true, "Website User", []⟩,
       ⟨PyVal.str "d@x.com", false, "System User", []⟩]
    customers := [PyVal.str "Cust 1"]
    suppliers := [PyVal.str "Supp 1"]
    companies := [PyVal.str "Comp 1"]
    invoices := [⟨PyVal.str "SINV-0001", 1, ⟨2026, 10, 5⟩⟩] }

/-- `wQuota` with a cached limits dict that lacks all five quota keys. -/
def wNoQuotaKeys : World :=
  { wQuota with cacheLimits := some (SCVal.dict [("max_storage_gb", PyVal.int 9)]) }

/-- `wQuota` with only `max_users` configured (positive and reached);
every other quota key is absent. -/
def wUsersOnly : World :=
  { wQuota with cacheLimits := some (SCVal.dict [("max_users", PyVal.int 3)]) }

/-- `wQuota` with `max_users = 0` (unlimited) while another quota key is
positive. -/
def wUserZeroCustPos : World :=
  { wQuota with
    cacheLimits :=
      some (SCVal.dict [("max_users", PyVal.int 0), ("max_customers", PyVal.int 5)]) }

/-- A world whose cache backend raises on every access. -/
def wBadCache : World := { baseWorld with flags := { okFlags with cacheOk := false } }

/-- A world whose `site_config.json` cannot be read or written, but with
a pre-existing key in the last successfully loaded contents. -/
def wBadFile : World :=
  { baseWorld with
    flags := { okFlags with fileOk := false }
    file := [("db_name", SCVal.prim (PyVal.str "tenantdb"))] }

/-- A complete, well-formed `setup_company` configuration. -/
def goodInput : ConfigInput :=
  some (SCVal.dict
    [("company_name", PyVal.str "Acme Corp"),
     ("company_abbr", PyVal.str "AC"),
     ("country", PyVal.str "India"),
     ("currency", PyVal.str "INR"),
     ("chart_of_accounts", PyVal.str "Standard"),
     ("fy_name", PyVal.str "2026-2027"),
     ("fy_start_date", PyVal.str "2026-04-01"),
     ("fy_end_date", PyVal.str "2027-03-31")])

/-- A healthy world except that the Fiscal Year insert raises; the world
carries a pre-existing site-config key. -/
def wFYFail : World :=
  { baseWorld with
    flags := { okFlags with insertFiscalYearFails := true }
    file := [("db_name", SCVal.prim (PyVal.str "tenantdb"))] }

/-- A healthy world except that the Company insert raises; the world
carries a pre-existing site-config key. -/
def wCompanyFail : World :=
  { baseWorld with
    flags := { okFlags with insertCompanyFails := true }
    file := [("db_name", SCVal.prim (PyVal.str "tenantdb"))] }

end TenantBootstrap

namespace TenantBootstrap

/-! ## Generic lemmas -/

@[simp] theorem ite_app (c : Prop) [Decidable c] (f g : M α) (w : World) :
    (if c then f else g) w = if c then f w else g w := by
  split <;> rfl

theorem lookupKey_setKey_ne [DecidableEq κ] (l : List (κ × α)) (k k' : κ) (v : α)
    (h : k' ≠ k) : lookupKey (setKey l k v) k' = lookupKey l k' := by
  induction l with
  | nil => simp [setKey, lookupKey, h, Ne.symm h]
  | cons p rest ih =>
      by_cases hp : p.1 = k
      · simp [setKey, hp, lookupKey, h, Ne.symm h]
      · simp only [setKey, hp, if_false]
        by_cases hp' : p.1 = k'
        · simp [lookupKey, hp']
        · simp [lookupKey, hp', ih]

theorem lookupKey_setKey_self [DecidableEq κ] (l : List (κ × α)) (k : κ) (v : α) :
    lookupKey (setKey l k v) k = some v := by
  induction l with
  | nil => simp [setKey, lookupKey]
  | cons p rest ih =>
      by_cases hp : p.1 = k
      · simp [setKey, hp, lookupKey]
      · simp [setKey, hp, lookupKey, ih]

theorem lookupKey_ne_nil [DecidableEq κ] {l : List (κ × α)} {k : κ} {v : α}
    (h : lookupKey l k = some v) : l.isEmpty = false := by
  cases l with
  | nil => simp [lookupKey] at h
  | cons p rest => rfl

/-! ## Claim theorems -/

/-- **C9.** `validate_user_limit` is a no-op for exempt documents: for
every world (any limits state, any user table, even a broken cache
backend), if the document's `user_type` is not `"System User"` or its
name is `Administrator` or `Guest`, the hook returns without raising and
leaves the world untouched — in particular it neither reads the limits
nor counts users, since the result is the same in worlds where reading
the limits would raise or where the counts differ. -/
theorem validate_user_limit_exempt_noop (w : World) (doc : UserDoc)
    (h : doc.userType ≠ "System User" ∨ doc.name = PyVal.str "Administrator" ∨
         doc.name = PyVal.str "Guest") :
    validate_user_limit doc w = (Except.ok (), w) := by
  rcases h with h | h | h
  · simp [validate_user_limit, h]
  · by_cases ht : doc.userType = "System User" <;> simp [validate_user_limit, ht, h]
  · by_cases ht : doc.userType = "System User" <;> simp [validate_user_limit, ht, h]

/-- Witness for C9: a disabled-exempt Administrator document against a
world whose quotas are exhausted. -/
theorem validate_user_limit_exempt_noop_witness :
    validate_user_limit ⟨PyVal.str "Administrator", "System User"⟩ wQuota =
      (Except.ok (), wQuota) :=
  validate_user_limit_exempt_noop wQuota ⟨PyVal.str "Administrator", "System User"⟩
    (Or.inr (Or.inl rfl))

/-- **C8.** Zero or absent means unlimited, per quota key: for each of
the five hooks separately, in any limits state whose *own* key
(`max_users`, `max_customers`, `max_suppliers`, `max_companies`,
`max_invoices_per_month`) is `0` or missing — the other keys
unconstrained — the hook returns without raising, for every document and
regardless of how many existing records there are. -/
theorem zero_or_missing_limit_is_unlimited :
    (∀ (w w' : World) (ld : List (String × PyVal)) (du : UserDoc),
       get_plan_limits w = (Except.ok (SCVal.dict ld), w') →
       lookupKey ld "max_users" = Option.none ∨
         lookupKey ld "max_users" = some (PyVal.int 0) →
       (validate_user_limit du w).1 = Except.ok ()) ∧
    (∀ (w w' : World) (ld : List (String × PyVal)) (dc : NamedDoc),
       get_plan_limits w = (Except.ok (SCVal.dict ld), w') →
       lookupKey ld "max_customers" = Option.none ∨
         lookupKey ld "max_customers" = some (PyVal.int 0) →
       (validate_customer_limit dc w).1 = Except.ok ()) ∧
    (∀ (w w' : World) (ld : List (String × PyVal)) (ds : NamedDoc),
       get_plan_limits w = (Except.ok (SCVal.dict ld), w') →
       lookupKey ld "max_suppliers" = Option.none ∨
         lookupKey ld "max_suppliers" = some (PyVal.int 0) →
       (validate_supplier_limit ds w).1 = Except.ok ()) ∧
    (∀ (w w' : World) (ld : List (String × PyVal)) (dco : NamedDoc),
       get_plan_limits w = (Except.ok (SCVal.dict ld), w') →
       lookupKey ld "max_companies" = Option.none ∨
         lookupKey ld "max_companies" = some (PyVal.int 0) →
       (validate_company_limit dco w).1 = Except.ok ()) ∧
    (∀ (w w' : World) (ld : List (String × PyVal)) (di : InvDoc),
       get_plan_limits w = (Except.ok (SCVal.dict ld), w') →
       lookupKey ld "max_invoices_per_month" = Option.none ∨
         lookupKey ld "max_invoices_per_month" = some (PyVal.int 0) →
       (validate_invoice_limit di w).1 = Except.ok ()) := by
  refine ⟨?_, ?_, ?_, ?_, ?_⟩
  · intro w w' ld du hgl hu
    by_cases ht : du.userType = "System User"
    · by_cases ha : du.name = PyVal.str "Administrator"
      · simp [validate_user_limit, ht, ha]
      · by_cases hg : du.name = PyVal.str "Guest"
        · simp [validate_user_limit, ht, ha, hg]
        · rcases hu with hu | hu <;>
            simp [validate_user_limit, ht, ha, hg, hgl, scGet, hu, PyVal.truthy]
    · simp [validate_user_limit, ht]
  · intro w w' ld dc hgl hc
    rcases hc with hc | hc <;>
      simp [validate_customer_limit, hgl, scGet, hc, PyVal.truthy]
  · intro w w' ld ds hgl hs
    rcases hs with hs | hs <;>
      simp [validate_supplier_limit, hgl, scGet, hs, PyVal.truthy]
  · intro w w' ld dco hgl hco
    rcases hco with hco | hco <;>
      simp [validate_company_limit, hgl, scGet, hco, PyVal.truthy]
  · intro w w' ld di hgl hi
    by_cases hd : di.docstatus = 1
    · rcases hi with hi | hi <;>
        simp [validate_invoice_limit, hd, hgl, scGet, hi, PyVal.truthy]
    · simp [validate_invoice_limit, hd]

/-- Witness for C8: the user hook passes in a state with `max_users = 0`
while `max_customers` is positive; the other four hooks pass in a state
lacking their keys — all in worlds full of records. -/
theorem zero_or_missing_limit_is_unlimited_witness :
    (validate_user_limit ⟨PyVal.str "n@x.com", "System User"⟩ wUserZeroCustPos).1 =
      Except.ok () ∧
    (validate_customer_limit ⟨PyVal.str "Cust 2", true⟩ wNoQuotaKeys).1 = Except.ok () ∧
    (validate_supplier_limit ⟨PyVal.str "Supp 2", true⟩ wNoQuotaKeys).1 = Except.ok () ∧
    (validate_company_limit ⟨PyVal.str "Comp 2", true⟩ wNoQuotaKeys).1 = Except.ok () ∧
    (validate_invoice_limit ⟨PyVal.str "SINV-0002", 1⟩ wNoQuotaKeys).1 = Except.ok () :=
  ⟨zero_or_missing_limit_is_unlimited.1 wUserZeroCustPos wUserZeroCustPos
     [("max_users", PyVal.int 0), ("max_customers", PyVal.int 5)]
     ⟨PyVal.str "n@x.com", "System User"⟩ rfl (Or.inr (by decide)),
   zero_or_missing_limit_is_unlimited.2.1 wNoQuotaKeys wNoQuotaKeys
     [("max_storage_gb", PyVal.int 9)] ⟨PyVal.str "Cust 2", true⟩ rfl (Or.inl (by decide)),
   zero_or_missing_limit_is_unlimited.2.2.1 wNoQuotaKeys wNoQuotaKeys
     [("max_storage_gb", PyVal.int 9)] ⟨PyVal.str "Supp 2", true⟩ rfl (Or.inl (by decide)),
   zero_or_missing_limit_is_unlimited.2.2.2.1 wNoQuotaKeys wNoQuotaKeys
     [("max_storage_gb", PyVal.int 9)] ⟨PyVal.str "Comp 2", true⟩ rfl (Or.inl (by decide)),
   zero_or_missing_limit_is_unlimited.2.2.2.2 wNoQuotaKeys wNoQuotaKeys
     [("max_storage_gb", PyVal.int 9)] ⟨PyVal.str "SINV-0002", 1⟩ rfl (Or.inl (by decide))⟩

/-- When a truthy limits dict sits in the cache, `get_plan_limits`
returns it and leaves the world unchanged. -/
theorem get_plan_limits_cached (w : World) (ld : List (String × PyVal))
    (h1 : w.flags.cacheOk = true) (h2 : w.cacheLimits = some (SCVal.dict ld))
    (h3 : ld ≠ []) :
    get_plan_limits w = (Except.ok (SCVal.dict ld), w) := by
  simp [get_plan_limits, cacheGetLimits, h1, h2, SCVal.truthy, h3]

/-- **C1.** Per quota: each hook raises a user-facing framework exception
(`frappe.throw`'s `ValidationError`) and thereby blocks the save,
whenever *its own* configured limit `L` is positive and the count of
existing qualifying records — the document itself excluded; for users
also Administrator, Guest, disabled and non-System users; for invoices
only submitted invoices of the current month — has reached `L`.  The
other quota keys are unconstrained. -/
theorem quota_limit_reached_raises :
    (∀ (w : World) (ld : List (String × PyVal)) (du : UserDoc) (L : Int),
       w.flags.cacheOk = true → w.cacheLimits = some (SCVal.dict ld) →
       du.userType = "System User" →
       du.name ≠ PyVal.str "Administrator" → du.name ≠ PyVal.str "Guest" →
       lookupKey ld "max_users" = some (PyVal.int L) → 0 < L →
       L ≤ (countUsersExcluding w du.name : Int) →
       (validate_user_limit du w).1 =
         Except.error (PyExc.validationError (userLimitMsg (PyVal.int L)) "User Limit Reached")) ∧
    (∀ (w : World) (ld : List (String × PyVal)) (dc : NamedDoc) (L : Int),
       w.flags.cacheOk = true → w.cacheLimits = some (SCVal.dict ld) →
       lookupKey ld "max_customers" = some (PyVal.int L) → 0 < L →
       L ≤ (countExcluding w.customers (exclOf dc) : Int) →
       (validate_customer_limit dc w).1 =
         Except.error (PyExc.validationError (customerLimitMsg (PyVal.int L)) "Customer Limit Reached")) ∧
    (∀ (w : World) (ld : List (String × PyVal)) (ds : NamedDoc) (L : Int),
       w.flags.cacheOk = true → w.cacheLimits = some (SCVal.dict ld) →
       lookupKey ld "max_suppliers" = some (PyVal.int L) → 0 < L →
       L ≤ (countExcluding w.suppliers (exclOf ds) : Int) →
       (validate_supplier_limit ds w).1 =
         Except.error (PyExc.validationError (supplierLimitMsg (PyVal.int L)) "Supplier Limit Reached")) ∧
    (∀ (w : World) (ld : List (String × PyVal)) (dco : NamedDoc) (L : Int),
       w.flags.cacheOk = true → w.cacheLimits = some (SCVal.dict ld) →
       lookupKey ld "max_companies" = some (PyVal.int L) → 0 < L →
       L ≤ (countExcluding w.companies (exclOf dco) : Int) →
       (validate_company_limit dco w).1 =
         Except.error (PyExc.validationError (companyLimitMsg (PyVal.int L)) "Company Limit Reached")) ∧
    (∀ (w : World) (ld : List (String × PyVal)) (di : InvDoc) (L : Int),
       w.flags.cacheOk = true → w.cacheLimits = some (SCVal.dict ld) →
       di.docstatus = 1 →
       lookupKey ld "max_invoices_per_month" = some (PyVal.int L) → 0 < L →
       L ≤ (countInvoicesThisMonth w di.name : Int) →
       (validate_invoice_limit di w).1 =
         Except.error (PyExc.validationError (invoiceLimitMsg (PyVal.int L)) "Monthly Invoice Limit Reached")) := by
  refine ⟨?_, ?_, ?_, ?_, ?_⟩
  · intro w ld du L hcache hlim hut hua hug hL hL0 hcnt
    have hgl : get_plan_limits w = (Except.ok (SCVal.dict ld), w) :=
      get_plan_limits_cached w ld hcache hlim (by
        intro h
        rw [h] at hL
        simp [lookupKey] at hL)
    have hL' : L ≠ 0 := by omega
    simp [validate_user_limit, hut, hua, hug, hgl, scGet, hL, PyVal.truthy, hL', pyGe, hcnt]
  · intro w ld dc L hcache hlim hL hL0 hcnt
    have hgl : get_plan_limits w = (Except.ok (SCVal.dict ld), w) :=
      get_plan_limits_cached w ld hcache hlim (by
        intro h
        rw [h] at hL
        simp [lookupKey] at hL)
    have hL' : L ≠ 0 := by omega
    simp [validate_customer_limit, hgl, scGet, hL, PyVal.truthy, hL', pyGe, hcnt]
  · intro w ld ds L hcache hlim hL hL0 hcnt
    have hgl : get_plan_limits w = (Except.ok (SCVal.dict ld), w) :=
      get_plan_limits_cached w ld hcache hlim (by
        intro h
        rw [h] at hL
        simp [lookupKey] at hL)
    have hL' : L ≠ 0 := by omega
    simp [validate_supplier_limit, hgl, scGet, hL, PyVal.truthy, hL', pyGe, hcnt]
  · intro w ld dco L hcache hlim hL hL0 hcnt
    have hgl : get_plan_limits w = (Except.ok (SCVal.dict ld), w) :=
      get_plan_limits_cached w ld hcache hlim (by
        intro h
        rw [h] at hL
        simp [lookupKey] at hL)
    have hL' : L ≠ 0 := by omega
    simp [validate_company_limit, hgl, scGet, hL, PyVal.truthy, hL', pyGe, hcnt]
  · intro w ld di L hcache hlim hdi hL hL0 hcnt
    have hgl : get_plan_limits w = (Except.ok (SCVal.dict ld), w) :=
      get_plan_limits_cached w ld hcache hlim (by
        intro h
        rw [h] at hL
        simp [lookupKey] at hL)
    have hL' : L ≠ 0 := by omega
    simp [validate_invoice_limit, hdi, hgl, scGet, hL, PyVal.truthy, hL', pyGe, hcnt]

/-- Witness for C1, covering the spec's concrete scenario: `max_users=3`
with 3 existing qualifying users blocks a 4th system user even when no
other quota key is configured; the other four quotas (limit 1, one
existing record) block as well. -/
theorem quota_limit_reached_raises_witness :
    (validate_user_limit ⟨PyVal.str "n@x.com", "System User"⟩ wUsersOnly).1 =
      Except.error (PyExc.validationError (userLimitMsg (PyVal.int 3)) "User Limit Reached") ∧
    (validate_customer_limit ⟨PyVal.str "Cust 2", true⟩ wQuota).1 =
      Except.error (PyExc.validationError (customerLimitMsg (PyVal.int 1)) "Customer Limit Reached") ∧
    (validate_supplier_limit ⟨PyVal.str "Supp 2", true⟩ wQuota).1 =
      Except.error (PyExc.validationError (supplierLimitMsg (PyVal.int 1)) "Supplier Limit Reached") ∧
    (validate_company_limit ⟨PyVal.str "Comp 2", true⟩ wQuota).1 =
      Except.error (PyExc.validationError (companyLimitMsg (PyVal.int 1)) "Company Limit Reached") ∧
    (validate_invoice_limit ⟨PyVal.str "SINV-0002", 1⟩ wQuota).1 =
      Except.error (PyExc.validationError (invoiceLimitMsg (PyVal.int 1)) "Monthly Invoice Limit Reached") :=
  ⟨quota_limit_reached_raises.1 wUsersOnly [("max_users", PyVal.int 3)]
     ⟨PyVal.str "n@x.com", "System User"⟩ 3 rfl rfl rfl (by decide) (by decide)
     (by decide) (by decide) (by decide),
   quota_limit_reached_raises.2.1 wQuota quotaDict ⟨PyVal.str "Cust 2", true⟩ 1
     rfl rfl (by decide) (by decide) (by decide),
   quota_limit_reached_raises.2.2.1 wQuota quotaDict ⟨PyVal.str "Supp 2", true⟩ 1
     rfl rfl (by decide) (by decide) (by decide),
   quota_limit_reached_raises.2.2.2.1 wQuota quotaDict ⟨PyVal.str "Comp 2", true⟩ 1
     rfl rfl (by decide) (by decide) (by decide),
   quota_limit_reached_raises.2.2.2.2 wQuota quotaDict ⟨PyVal.str "SINV-0002", 1⟩ 1
     rfl rfl rfl (by decide) (by decide) (by decide)⟩

/-! ### Run lemmas for `set_plan_limits` -/

/-- Healthy cache and file: both stores are written. -/
theorem set_plan_limits_run_ok (limits : List (String × PyVal)) (w : World)
    (hc : w.flags.cacheOk = true) (hf : w.flags.fileOk = true) :
    set_plan_limits limits w =
      (Except.ok (),
       { w with cacheLimits := some (SCVal.dict limits),
                file := setKey w.file "saas_plan_limits" (SCVal.dict limits) }) := by
  simp [set_plan_limits, cacheSetLimits, readSiteConfig, writeSiteConfig, hc, hf]

/-- Healthy cache, broken file: the cache is written, the file exception
is logged and swallowed, the file stays as it was. -/
theorem set_plan_limits_run_badfile (limits : List (String × PyVal)) (w : World)
    (hc : w.flags.cacheOk = true) (hf : w.flags.fileOk = false) :
    set_plan_limits limits w =
      (Except.ok (),
       { w with cacheLimits := some (SCVal.dict limits),
                errorLog :=
                  ("Failed to save plan limits to site config: " ++ fileExc.toMsg)
                    :: w.errorLog }) := by
  simp [set_plan_limits, cacheSetLimits, readSiteConfig, logError, hc, hf]

/-- Broken cache: the cache write raises before the file is touched. -/
theorem set_plan_limits_run_badcache (limits : List (String × PyVal)) (w : World)
    (hc : w.flags.cacheOk = false) :
    set_plan_limits limits w = (Except.error cacheExc, w) := by
  simp [set_plan_limits, cacheSetLimits, hc]

/-- **C5 (counterexample).** The claim that `set_plan_limits` always
leaves cache and `site_config.json` holding the same value is false: with
an unwritable site config the call still returns normally, the cache
holds the new limits, but the file does not contain them. -/
theorem set_plan_limits_mirror_counterexample :
    (set_plan_limits quotaDict wBadFile).1 = Except.ok () ∧
    ((set_plan_limits quotaDict wBadFile).2).cacheLimits = some (SCVal.dict quotaDict) ∧
    lookupKey ((set_plan_limits quotaDict wBadFile).2).file "saas_plan_limits" =
      Option.none := by
  rw [set_plan_limits_run_badfile quotaDict wBadFile rfl rfl]
  exact ⟨rfl, rfl, rfl⟩

/-- **C5 (amended).** When `set_plan_limits(limits)` returns normally the
cache entry always holds `limits`; the `site_config.json` key holds
`limits` only when the file round-trip succeeds — when it fails, the
exception is swallowed and the file is left unchanged, so the two stores
can diverge. -/
theorem set_plan_limits_mirror_amended (limits : List (String × PyVal)) (w : World)
    (hok : (set_plan_limits limits w).1 = Except.ok ()) :
    ((set_plan_limits limits w).2).cacheLimits = some (SCVal.dict limits) ∧
    (w.flags.fileOk = true →
      lookupKey ((set_plan_limits limits w).2).file "saas_plan_limits" =
        some (SCVal.dict limits)) ∧
    (w.flags.fileOk = false → ((set_plan_limits limits w).2).file = w.file) := by
  cases hc : w.flags.cacheOk with
  | false =>
      rw [set_plan_limits_run_badcache limits w hc] at hok
      exact absurd hok (by simp)
  | true =>
      cases hf : w.flags.fileOk with
      | false =>
          rw [set_plan_limits_run_badfile limits w hc hf]
          refine ⟨rfl, ?_, fun _ => rfl⟩
          intro h
          simp [hf] at h
      | true =>
          rw [set_plan_limits_run_ok limits w hc hf]
          refine ⟨rfl, fun _ => ?_, ?_⟩
          · simpa using lookupKey_setKey_self w.file "saas_plan_limits" (SCVal.dict limits)
          · intro h
            simp [hf] at h

/-- Witness for C5 (amended), on a healthy world. -/
theorem set_plan_limits_mirror_amended_witness :
    ((set_plan_limits quotaDict baseWorld).2).cacheLimits = some (SCVal.dict quotaDict) ∧
    (baseWorld.flags.fileOk = true →
      lookupKey ((set_plan_limits quotaDict baseWorld).2).file "saas_plan_limits" =
        some (SCVal.dict quotaDict)) ∧
    (baseWorld.flags.fileOk = false →
      ((set_plan_limits quotaDict baseWorld).2).file = baseWorld.file) :=
  set_plan_limits_mirror_amended quotaDict baseWorld rfl

/-- **C3 (counterexample).** Not every entry point is wrapped in a
catch-all handler: `get_current_limits` has none, and an exception raised
while reading the limits (here, an unavailable cache backend) propagates
to the caller instead of being turned into a failure dict. -/
theorem get_current_limits_propagates_counterexample :
    (get_current_limits wBadCache).1 = Except.error cacheExc := rfl

/-- **C3 (amended).** `setup_company`, `create_user` and
`sync_plan_limits` wrap their bodies in catch-all handlers: they always
return a dict, and when the body raises they return a failure dict
carrying the exception's string form (`message` key for the setup
functions, `error` key for `sync_plan_limits`, which also logs it via
`frappe.log_error`; the setup functions print the traceback to the job
console, which is I/O outside this model).  `get_current_limits` has no
handler — see the counterexample. -/
theorem entry_point_catch_all_amended :
    (∀ (input : ConfigInput) (w : World), ∃ r, (setup_company input w).1 = Except.ok r) ∧
    (∀ (input : ConfigInput) (w : World) (e : PyExc),
       (setupBody input w).1 = Except.error e →
       (setup_company input w).1 = Except.ok (failDict e.toMsg)) ∧
    (∀ (input : ConfigInput) (w : World), ∃ r, (create_user input w).1 = Except.ok r) ∧
    (∀ (input : ConfigInput) (w : World) (e : PyExc),
       (createUserBody input w).1 = Except.error e →
       (create_user input w).1 = Except.ok (failDict e.toMsg)) ∧
    (∀ (mu mc ms mco mi mg : PyVal) (w : World),
       ∃ r, (sync_plan_limits mu mc ms mco mi mg w).1 = Except.ok r) ∧
    (∀ (mu mc ms mco mi mg : PyVal) (w : World) (e : PyExc),
       (syncBody mu mc ms mco mi mg w).1 = Except.error e →
       (sync_plan_limits mu mc ms mco mi mg w).1 = Except.ok (syncFailDict e.toMsg) ∧
       ∃ tl, ((sync_plan_limits mu mc ms mco mi mg w).2).errorLog =
         ("Failed to sync plan limits: " ++ e.toMsg) :: tl) := by
  refine ⟨?_, ?_, ?_, ?_, ?_, ?_⟩
  · intro input w
    cases hb : setupBody input w with
    | mk r w' =>
      cases r with
      | ok a => exact ⟨a, by simp [setup_company, hb]⟩
      | error e => exact ⟨failDict e.toMsg, by simp [setup_company, hb]⟩
  · intro input w e he
    cases hb : setupBody input w with
    | mk r w' =>
      cases r with
      | ok a => rw [hb] at he; simp at he
      | error e' =>
          rw [hb] at he
          simp at he
          subst he
          simp [setup_company, hb]
  · intro input w
    cases hb : createUserBody input w with
    | mk r w' =>
      cases r with
      | ok a => exact ⟨a, by simp [create_user, hb]⟩
      | error e => exact ⟨failDict e.toMsg, by simp [create_user, hb]⟩
  · intro input w e he
    cases hb : createUserBody input w with
    | mk r w' =>
      cases r with
      | ok a => rw [hb] at he; simp at he
      | error e' =>
          rw [hb] at he
          simp at he
          subst he
          simp [create_user, hb]
  · intro mu mc ms mco mi mg w
    cases hb : syncBody mu mc ms mco mi mg w with
    | mk r w' =>
      cases r with
      | ok a => exact ⟨a, by simp [sync_plan_limits, hb]⟩
      | error e =>
          exact ⟨syncFailDict e.toMsg, by simp [sync_plan_limits, hb, logError]⟩
  · intro mu mc ms mco mi mg w e he
    cases hb : syncBody mu mc ms mco mi mg w with
    | mk r w' =>
      cases r with
      | ok a => rw [hb] at he; simp at he
      | error e' =>
          rw [hb] at he
          simp at he
          subst he
          exact ⟨by simp [sync_plan_limits, hb, logError],
                 w'.errorLog, by simp [sync_plan_limits, hb, logError]⟩

/-- Witness for C3 (amended): malformed base64 input for the setup
functions, an unavailable cache backend for `sync_plan_limits`. -/
theorem entry_point_catch_all_amended_witness :
    (setup_company Option.none baseWorld).1 =
      Except.ok (failDict "binascii.Error: invalid base64 / json decode failed") ∧
    (create_user Option.none baseWorld).1 =
      Except.ok (failDict "binascii.Error: invalid base64 / json decode failed") ∧
    (sync_plan_limits (PyVal.int 1) (PyVal.int 2) (PyVal.int 3) (PyVal.int 4)
        (PyVal.int 5) (PyVal.int 6) wBadCache).1 =
      Except.ok (syncFailDict "RedisConnectionError: cache unavailable") :=
  ⟨entry_point_catch_all_amended.2.1 Option.none baseWorld
     (PyExc.err "binascii.Error: invalid base64 / json decode failed") (by rfl),
   entry_point_catch_all_amended.2.2.2.1 Option.none baseWorld
     (PyExc.err "binascii.Error: invalid base64 / json decode failed") (by rfl),
   (entry_point_catch_all_amended.2.2.2.2.2 (PyVal.int 1) (PyVal.int 2) (PyVal.int 3)
     (PyVal.int 4) (PyVal.int 5) (PyVal.int 6) wBadCache
     cacheExc (by rfl)).1⟩

/-! ### Coercion lemmas and the sync/get round trip -/

theorem coerceLimitInt_numeric (v : PyVal) (h : isNumeric v = true) :
    coerceLimitInt v = Except.ok (intOfNum v) := by
  cases v with
  | int n =>
      by_cases hn : n = 0 <;>
        simp [coerceLimitInt, PyVal.truthy, pyIntCoe, intOfNum, hn]
  | float q =>
      by_cases hq : q = 0 <;>
        simp [coerceLimitInt, PyVal.truthy, pyIntCoe, intOfNum, pyTrunc, hq]
  | none => simp [isNumeric] at h
  | bool b => simp [isNumeric] at h
  | str s => simp [isNumeric] at h

theorem coerceLimitFloat_numeric (v : PyVal) (h : isNumeric v = true) :
    coerceLimitFloat v = Except.ok (floatOfNum v) := by
  cases v with
  | int n =>
      by_cases hn : n = 0 <;>
        simp [coerceLimitFloat, PyVal.truthy, pyFloatCoe, floatOfNum, hn]
  | float q =>
      by_cases hq : q = 0 <;>
        simp [coerceLimitFloat, PyVal.truthy, pyFloatCoe, floatOfNum, hq]
  | none => simp [isNumeric] at h
  | bool b => simp [isNumeric] at h
  | str s => simp [isNumeric] at h

/-- `get_current_limits` over a world with a truthy cached dict. -/
theorem get_current_limits_cached (w : World) (ld : List (String × PyVal))
    (h1 : w.flags.cacheOk = true) (h2 : w.cacheLimits = some (SCVal.dict ld))
    (h3 : ld ≠ []) :
    get_current_limits w =
      (Except.ok [("success", SCVal.prim (PyVal.bool true)), ("limits", SCVal.dict ld)], w) := by
  simp [get_current_limits, get_plan_limits_cached w ld h1 h2 h3]

/-- **C4.** Round trip of the quota endpoints: for numeric limit
arguments, when `sync_plan_limits` returns a success dict, a subsequent
`get_current_limits` (with no intervening writes) returns success
together with exactly the coerced limits dict (ints, float
`max_storage_gb`) that `sync_plan_limits` stored and reported. -/
theorem sync_get_round_trip (a1 a2 a3 a4 a5 a6 : PyVal) (w : World)
    (h1 : isNumeric a1 = true) (h2 : isNumeric a2 = true) (h3 : isNumeric a3 = true)
    (h4 : isNumeric a4 = true) (h5 : isNumeric a5 = true) (h6 : isNumeric a6 = true)
    (d : List (String × SCVal))
    (hr : (sync_plan_limits a1 a2 a3 a4 a5 a6 w).1 = Except.ok d)
    (hs : lookupKey d "success" = some (SCVal.prim (PyVal.bool true))) :
    ∃ L, lookupKey d "limits" = some (SCVal.dict L) ∧
      (get_current_limits ((sync_plan_limits a1 a2 a3 a4 a5 a6 w).2)).1 =
        Except.ok [("success", SCVal.prim (PyVal.bool true)), ("limits", SCVal.dict L)] := by
  have hc1 := coerceLimitInt_numeric a1 h1
  have hc2 := coerceLimitInt_numeric a2 h2
  have hc3 := coerceLimitInt_numeric a3 h3
  have hc4 := coerceLimitInt_numeric a4 h4
  have hc5 := coerceLimitInt_numeric a5 h5
  have hc6 := coerceLimitFloat_numeric a6 h6
  cases hc : w.flags.cacheOk with
  | false =>
      exfalso
      have hrun := set_plan_limits_run_badcache
        (syncLimitsDict (intOfNum a1) (intOfNum a2) (intOfNum a3) (intOfNum a4)
          (intOfNum a5) (floatOfNum a6)) w hc
      simp [sync_plan_limits, syncBody, hc1, hc2, hc3, hc4, hc5, hc6, hrun, logError] at hr
      subst hr
      simp [syncFailDict, lookupKey] at hs
  | true =>
      cases hf : w.flags.fileOk with
      | true =>
          have hrun := set_plan_limits_run_ok
            (syncLimitsDict (intOfNum a1) (intOfNum a2) (intOfNum a3) (intOfNum a4)
              (intOfNum a5) (floatOfNum a6)) w hc hf
          simp [sync_plan_limits, syncBody, hc1, hc2, hc3, hc4, hc5, hc6, hrun] at hr
          subst hr
          refine ⟨syncLimitsDict (intOfNum a1) (intOfNum a2) (intOfNum a3) (intOfNum a4)
            (intOfNum a5) (floatOfNum a6), by simp [lookupKey], ?_⟩
          simp only [sync_plan_limits, tryCatchM_app, syncBody, bind_eq_bindM, bindM_app,
            liftE_app, hc1, hc2, hc3, hc4, hc5, hc6, hrun, pureM_app]
          rw [get_current_limits_cached _
            (syncLimitsDict (intOfNum a1) (intOfNum a2) (intOfNum a3) (intOfNum a4)
              (intOfNum a5) (floatOfNum a6)) (by simp [hc]) (by simp) (by simp [syncLimitsDict])]
      | false =>
          have hrun := set_plan_limits_run_badfile
            (syncLimitsDict (intOfNum a1) (intOfNum a2) (intOfNum a3) (intOfNum a4)
              (intOfNum a5) (floatOfNum a6)) w hc hf
          simp [sync_plan_limits, syncBody, hc1, hc2, hc3, hc4, hc5, hc6, hrun] at hr
          subst hr
          refine ⟨syncLimitsDict (intOfNum a1) (intOfNum a2) (intOfNum a3) (intOfNum a4)
            (intOfNum a5) (floatOfNum a6), by simp [lookupKey], ?_⟩
          simp only [sync_plan_limits, tryCatchM_app, syncBody, bind_eq_bindM, bindM_app,
            liftE_app, hc1, hc2, hc3, hc4, hc5, hc6, hrun, pureM_app]
          rw [get_current_limits_cached _
            (syncLimitsDict (intOfNum a1) (intOfNum a2) (intOfNum a3) (intOfNum a4)
              (intOfNum a5) (floatOfNum a6)) (by simp [hc]) (by simp) (by simp [syncLimitsDict])]

/-- Witness for C4: concrete numeric arguments on a healthy world. -/
theorem sync_get_round_trip_witness :
    ∃ L, lookupKey
        ((sync_plan_limits (PyVal.int 5) (PyVal.int 100) (PyVal.int 50) (PyVal.int 1)
            (PyVal.int 200) (PyVal.float 10) baseWorld).1.toOption.getD []) "limits" =
        some (SCVal.dict L) ∧
      (get_current_limits ((sync_plan_limits (PyVal.int 5) (PyVal.int 100) (PyVal.int 50)
          (PyVal.int 1) (PyVal.int 200) (PyVal.float 10) baseWorld).2)).1 =
        Except.ok [("success", SCVal.prim (PyVal.bool true)), ("limits", SCVal.dict L)] :=
  sync_get_round_trip (PyVal.int 5) (PyVal.int 100) (PyVal.int 50) (PyVal.int 1)
    (PyVal.int 200) (PyVal.float 10) baseWorld rfl rfl rfl rfl rfl rfl
    ((sync_plan_limits (PyVal.int 5) (PyVal.int 100) (PyVal.int 50) (PyVal.int 1)
        (PyVal.int 200) (PyVal.float 10) baseWorld).1.toOption.getD [])
    (by rfl) (by rfl)

/-! ### Result-shape lemmas -/

theorem resultShape_failDict (msg : String) : resultShape (failDict msg) :=
  ⟨false, msg, rfl⟩

theorem resultShape_setupResultDict (b : Bool) (n : PyVal) :
    resultShape (setupResultDict b n) := by
  cases b with
  | false => exact ⟨false, "Company " ++ n.toStr ++ " not found after creation", rfl⟩
  | true => exact ⟨true, "Company " ++ n.toStr ++ " created successfully", rfl⟩

theorem shape_pureM (d : List (String × SCVal)) (h : resultShape d) :
    ShapeOK (pureM d) := by
  intro w d' w' he
  simp [pureM] at he
  exact he.1 ▸ h

theorem shape_bindM (m : M α) (k : α → M (List (String × SCVal)))
    (hk : ∀ a, ShapeOK (k a)) : ShapeOK (bindM m k) := by
  intro w d w' he
  unfold bindM at he
  cases hm : m w with
  | mk r w1 =>
      rw [hm] at he
      cases r with
      | ok a => exact hk a w1 d w' he
      | error e => simp at he

theorem shape_tryCatchM (m : M (List (String × SCVal)))
    (h : PyExc → M (List (String × SCVal)))
    (hm : ShapeOK m) (hh : ∀ e, ShapeOK (h e)) : ShapeOK (tryCatchM m h) := by
  intro w d w' he
  unfold tryCatchM at he
  cases hmw : m w with
  | mk r w1 =>
      rw [hmw] at he
      cases r with
      | ok a => exact hm w d w' (by rw [hmw]; exact he ▸ rfl)
      | error e => exact hh e w1 d w' he

theorem shape_ite (c : Prop) [Decidable c] (f g : M (List (String × SCVal)))
    (hf : ShapeOK f) (hg : ShapeOK g) : ShapeOK (if c then f else g) := by
  by_cases hc : c
  · simpa [hc] using hf
  · simpa [hc] using hg

theorem shape_setupFinal (n : PyVal) : ShapeOK (setupFinal n) := by
  unfold setupFinal
  simp only [bind_eq_bindM]
  exact shape_bindM _ _ (fun a => shape_pureM _ (resultShape_setupResultDict _ _))

theorem shape_setupBody (input : ConfigInput) : ShapeOK (setupBody input) := by
  unfold setupBody
  simp only [bind_eq_bindM]
  exact shape_bindM _ _ (fun c => shape_setupFinal _)

theorem shape_createUserBody (input : ConfigInput) : ShapeOK (createUserBody input) := by
  unfold createUserBody
  simp only [bind_eq_bindM, pure_eq_pureM]
  apply shape_bindM; intro config
  apply shape_bindM; intro email
  apply shape_bindM; intro fn
  apply shape_bindM; intro ln
  apply shape_bindM; intro pw
  apply shape_bindM; intro u1
  apply shape_bindM; intro w0
  apply shape_ite
  · apply shape_bindM; intro u2
    apply shape_bindM; intro u3
    apply shape_bindM; intro u4
    apply shape_bindM; intro u5
    apply shape_bindM; intro u6
    exact shape_pureM _ ⟨true, _, rfl⟩
  · apply shape_bindM; intro u2
    apply shape_bindM; intro u3
    apply shape_bindM; intro u4
    apply shape_bindM; intro u5
    apply shape_bindM; intro u6
    apply shape_bindM; intro u7
    exact shape_pureM _ ⟨true, _, rfl⟩

/-- **C2.** For every input (malformed base64, invalid JSON, JSON that is
not an object, objects missing required keys) and every world,
`setup_company` and `create_user` each return a dict of the exact shape
`{"success": bool, "message": str}` — no other result shape is
possible. -/
theorem remote_entry_points_result_shape (input : ConfigInput) (w : World) :
    (∃ b m, (setup_company input w).1 =
      Except.ok [("success", SCVal.prim (PyVal.bool b)), ("message", SCVal.prim (PyVal.str m))]) ∧
    (∃ b m, (create_user input w).1 =
      Except.ok [("success", SCVal.prim (PyVal.bool b)), ("message", SCVal.prim (PyVal.str m))]) := by
  constructor
  · cases hb : setupBody input w with
    | mk r w' =>
        cases r with
        | ok a =>
            obtain ⟨b, msg, hshape⟩ := shape_setupBody input w a w' hb
            exact ⟨b, msg, by simp [setup_company, hb, hshape]⟩
        | error e => exact ⟨false, e.toMsg, by simp [setup_company, hb, failDict]⟩
  · cases hb : createUserBody input w with
    | mk r w' =>
        cases r with
        | ok a =>
            obtain ⟨b, msg, hshape⟩ := shape_createUserBody input w a w' hb
            exact ⟨b, msg, by simp [create_user, hb, hshape]⟩
        | error e => exact ⟨false, e.toMsg, by simp [create_user, hb, failDict]⟩

/-- **C7.** `setup_company` is not atomic: with a healthy environment
except that the Company insert raises, the run fails mid-sequence
(returning a failure dict), yet the earlier steps' mutations survive —
`setup_complete = 1` is still written in `site_config.json` (other keys
preserved), System Settings still carries `setup_complete = 1`, the
Warehouse Types created in step 3 remain, and no Company was created; no
rollback of the prior steps occurs. -/
theorem setup_company_not_atomic :
    (setup_company goodInput wCompanyFail).1 =
      Except.ok (failDict "ValidationError: company insert failed") ∧
    lookupKey ((setup_company goodInput wCompanyFail).2).file "setup_complete" =
      some (SCVal.prim (PyVal.int 1)) ∧
    lookupKey ((setup_company goodInput wCompanyFail).2).file "db_name" =
      some (SCVal.prim (PyVal.str "tenantdb")) ∧
    lookupKey ((setup_company goodInput wCompanyFail).2).singles
      ("System Settings", "setup_complete") = some (PyVal.int 1) ∧
    ((setup_company goodInput wCompanyFail).2).warehouseTypes =
      ["Virtual", "Goods In Transit", "Stores", "Transit"] ∧
    ((setup_company goodInput wCompanyFail).2).companies = [] := by
  decide

/-! ### File-preservation and state-invariance lemmas -/

theorem pf_of_si (m : M α) (h : StateInv m) : PreservesFile m := by
  intro w
  rw [h w]

theorem si_pureM (a : α) : StateInv (pureM a) := fun _ => rfl

theorem si_liftE (e : Except PyExc α) : StateInv (liftE e) := fun _ => rfl

theorem si_bindM (m : M α) (k : α → M β) (hm : StateInv m) (hk : ∀ a, StateInv (k a)) :
    StateInv (bindM m k) := by
  intro w
  unfold bindM
  rcases hmw : m w with ⟨r, w1⟩
  have h1 : w1 = w := by have := hm w; rw [hmw] at this; exact this
  subst h1
  cases r with
  | ok a => exact hk a w1
  | error e => rfl

theorem si_decodeConfig (input : ConfigInput) : StateInv (decodeConfig input) := by
  cases input <;> exact fun _ => rfl

theorem si_setupParse (input : ConfigInput) : StateInv (setupParse input) := by
  unfold setupParse
  simp only [bind_eq_bindM]
  repeat'
    first
    | exact si_decodeConfig _
    | exact fun _ => rfl
    | apply si_bindM
    | intro x

theorem pf_pureM (a : α) : PreservesFile (pureM a) := fun _ => rfl

theorem pf_raiseM (e : PyExc) : PreservesFile (raiseM e : M α) := fun _ => rfl

theorem pf_getW : PreservesFile getW := fun _ => rfl

theorem pf_bindM (m : M α) (k : α → M β) (hm : PreservesFile m)
    (hk : ∀ a, PreservesFile (k a)) : PreservesFile (bindM m k) := by
  intro w
  unfold bindM
  rcases hmw : m w with ⟨r, w1⟩
  have h1 : w1.file = w.file := by have := hm w; rw [hmw] at this; exact this
  cases r with
  | ok a => rw [hk a w1, h1]
  | error e => exact h1

theorem pf_tryCatchM (m : M α) (h : PyExc → M α) (hm : PreservesFile m)
    (hh : ∀ e, PreservesFile (h e)) : PreservesFile (tryCatchM m h) := by
  intro w
  unfold tryCatchM
  rcases hmw : m w with ⟨r, w1⟩
  have h1 : w1.file = w.file := by have := hm w; rw [hmw] at this; exact this
  cases r with
  | ok a => exact h1
  | error e => rw [hh e w1, h1]

theorem pf_ite (c : Prop) [Decidable c] (f g : M α) (hf : PreservesFile f)
    (hg : PreservesFile g) : PreservesFile (if c then f else g) := by
  by_cases hc : c
  · simpa [hc] using hf
  · simpa [hc] using hg

theorem pf_dbCommit : PreservesFile dbCommit := fun _ => rfl

theorem pf_clearCache : PreservesFile clearCache := fun _ => rfl

theorem pf_dbSetSingleValue (d f : String) (v : PyVal) :
    PreservesFile (dbSetSingleValue d f v) := by
  intro w
  simp only [dbSetSingleValue, bind_eq_bindM, bindM_app, getW_app, ite_app]
  split <;> rfl

theorem pf_markAppSetupComplete (app : String) :
    PreservesFile (markAppSetupComplete app) := by
  intro w
  simp only [markAppSetupComplete, bind_eq_bindM, bindM_app, getW_app, ite_app]
  split <;> rfl

theorem pf_setDefault (k : String) (v : PyVal) : PreservesFile (setDefault k v) :=
  fun _ => rfl

theorem pf_ensureWarehouseType (wt : String) : PreservesFile (ensureWarehouseType wt) := by
  intro w
  simp only [ensureWarehouseType, bind_eq_bindM, bindM_app, getW_app, ite_app]
  split
  · rfl
  · split <;> rfl

theorem pf_insertCompany (n : PyVal) : PreservesFile (insertCompany n) := by
  intro w
  simp only [insertCompany, bind_eq_bindM, bindM_app, getW_app, ite_app]
  split
  · rfl
  · split <;> rfl

theorem pf_insertFiscalYear (n : PyVal) : PreservesFile (insertFiscalYear n) := by
  intro w
  simp only [insertFiscalYear, bind_eq_bindM, bindM_app, getW_app, ite_app]
  split <;> rfl

theorem pf_docTypeExists (n : String) : PreservesFile (docTypeExists n) := fun _ => rfl

theorem pf_saveSingleDoc (d : String) (fl : List (String × PyVal)) (fails : Bool) :
    PreservesFile (saveSingleDoc d fl fails) := by
  intro w
  cases fails <;> rfl

theorem pf_modifyW (f : World → World) (h : ∀ w, (f w).file = w.file) :
    PreservesFile (modifyW f) := fun w => h w

theorem pf_setupStep2 (c : SetupCfg) : PreservesFile (setupStep2 c) := by
  unfold setupStep2
  simp only [bind_eq_bindM]
  refine pf_bindM _ _ (pf_dbSetSingleValue _ _ _) (fun _ => ?_)
  refine pf_bindM _ _ (pf_dbSetSingleValue _ _ _) (fun _ => ?_)
  refine pf_bindM _ _ (pf_dbSetSingleValue _ _ _) (fun _ => ?_)
  refine pf_bindM _ _ (pf_dbSetSingleValue _ _ _) (fun _ => ?_)
  exact pf_bindM _ _ (pf_dbSetSingleValue _ _ _) (fun _ => pf_dbCommit)

theorem pf_setupStep2b : PreservesFile setupStep2b := by
  unfold setupStep2b
  simp only [bind_eq_bindM]
  refine pf_bindM _ _ (pf_markAppSetupComplete _) (fun _ => ?_)
  exact pf_bindM _ _ (pf_markAppSetupComplete _) (fun _ => pf_dbCommit)

theorem pf_setupStep2c : PreservesFile setupStep2c := by
  unfold setupStep2c
  simp only [bind_eq_bindM]
  exact pf_bindM _ _ (pf_setDefault _ _) (fun _ => pf_dbCommit)

theorem pf_setupStep3 : PreservesFile setupStep3 := by
  unfold setupStep3
  simp only [bind_eq_bindM]
  refine pf_bindM _ _ (pf_ensureWarehouseType _) (fun _ => ?_)
  refine pf_bindM _ _ (pf_ensureWarehouseType _) (fun _ => ?_)
  refine pf_bindM _ _ (pf_ensureWarehouseType _) (fun _ => ?_)
  exact pf_bindM _ _ (pf_ensureWarehouseType _) (fun _ => pf_dbCommit)

theorem pf_setupStep4core (c : SetupCfg) : PreservesFile (setupStep4core c) := by
  unfold setupStep4core
  simp only [bind_eq_bindM]
  refine pf_bindM _ _ pf_getW (fun w4 => ?_)
  refine pf_ite _ _ _ ?_ ?_
  · refine pf_bindM _ _ (pf_insertCompany _) (fun _ => ?_)
    refine pf_bindM _ _ (pf_setDefault _ _) (fun _ => ?_)
    refine pf_bindM _ _ (pf_setDefault _ _) (fun _ => ?_)
    exact pf_bindM _ _ (pf_setDefault _ _) (fun _ => pf_dbCommit)
  · refine pf_bindM _ _ (pf_setDefault _ _) (fun _ => ?_)
    refine pf_bindM _ _ (pf_setDefault _ _) (fun _ => ?_)
    exact pf_bindM _ _ (pf_setDefault _ _) (fun _ => pf_dbCommit)

theorem pf_setupStep4 (c : SetupCfg) : PreservesFile (setupStep4 c) := by
  unfold setupStep4
  simp only [bind_eq_bindM]
  refine pf_bindM _ _ (pf_modifyW _ (fun _ => rfl)) (fun _ => ?_)
  exact pf_bindM _ _ (pf_setupStep4core c) (fun _ => pf_modifyW _ (fun _ => rfl))

theorem pf_setupStep5 (c : SetupCfg) : PreservesFile (setupStep5 c) := by
  unfold setupStep5
  simp only [bind_eq_bindM]
  refine pf_bindM _ _ pf_getW (fun w5 => ?_)
  refine pf_ite _ _ _ ?_ ?_
  · refine pf_bindM _ _ (pf_insertFiscalYear _) (fun _ => ?_)
    exact pf_bindM _ _ (pf_setDefault _ _) (fun _ => pf_dbCommit)
  · exact pf_bindM _ _ (pf_setDefault _ _) (fun _ => pf_dbCommit)

theorem pf_setupStep6 : PreservesFile setupStep6 := by
  unfold setupStep6
  simp only [bind_eq_bindM]
  refine pf_bindM _ _ (pf_docTypeExists _) (fun e6 => ?_)
  refine pf_ite _ _ _ ?_ (pf_pureM _)
  refine pf_tryCatchM _ _ ?_ (fun e => pf_pureM _)
  refine pf_bindM _ _ pf_getW (fun wx => ?_)
  exact pf_bindM _ _ (pf_saveSingleDoc _ _ _) (fun _ => pf_dbCommit)

theorem pf_setupStep7 (c : SetupCfg) : PreservesFile (setupStep7 c) := by
  unfold setupStep7
  simp only [bind_eq_bindM]
  refine pf_bindM _ _ (pf_docTypeExists _) (fun e7 => ?_)
  refine pf_ite _ _ _ ?_ (pf_pureM _)
  refine pf_tryCatchM _ _ ?_ (fun e => pf_pureM _)
  refine pf_bindM _ _ pf_getW (fun wx => ?_)
  exact pf_bindM _ _ (pf_saveSingleDoc _ _ _) (fun _ => pf_dbCommit)

theorem pf_setupStep8 : PreservesFile setupStep8 := by
  unfold setupStep8
  simp only [bind_eq_bindM]
  refine pf_bindM _ _ (pf_docTypeExists _) (fun e8 => ?_)
  refine pf_ite _ _ _ ?_ (pf_pureM _)
  refine pf_tryCatchM _ _ ?_ (fun e => pf_pureM _)
  refine pf_bindM _ _ pf_getW (fun wx => ?_)
  exact pf_bindM _ _ (pf_saveSingleDoc _ _ _) (fun _ => pf_dbCommit)

theorem pf_setupSteps2to9 (c : SetupCfg) : PreservesFile (setupSteps2to9 c) := by
  unfold setupSteps2to9
  simp only [bind_eq_bindM]
  refine pf_bindM _ _ (pf_setupStep2 c) (fun _ => ?_)
  refine pf_bindM _ _ pf_setupStep2b (fun _ => ?_)
  refine pf_bindM _ _ pf_setupStep2c (fun _ => ?_)
  refine pf_bindM _ _ pf_setupStep3 (fun _ => ?_)
  refine pf_bindM _ _ (pf_setupStep4 c) (fun _ => ?_)
  refine pf_bindM _ _ (pf_setupStep5 c) (fun _ => ?_)
  refine pf_bindM _ _ pf_setupStep6 (fun _ => ?_)
  refine pf_bindM _ _ (pf_setupStep7 c) (fun _ => ?_)
  exact pf_bindM _ _ pf_setupStep8 (fun _ => pf_clearCache)

/-- One-step characterisation of step 1 of `setup_company`. -/
theorem setupStep1_run (w : World) :
    setupStep1 w =
      if w.flags.fileOk
      then (Except.ok (),
            { w with file := setKey w.file "setup_complete" (SCVal.prim (PyVal.int 1)) })
      else (Except.error fileExc, w) := by
  by_cases hf : w.flags.fileOk <;>
    simp [setupStep1, readSiteConfig, writeSiteConfig, hf]

/-- The site-config file after the pre-final part of `setup_company`:
either untouched (an exception before or at the file write) or exactly
the old file with `setup_complete` set. -/
theorem setupPrefix_file (input : ConfigInput) (w : World) :
    ((setupPrefix input w).2).file = w.file ∨
    ((setupPrefix input w).2).file =
      setKey w.file "setup_complete" (SCVal.prim (PyVal.int 1)) := by
  unfold setupPrefix
  simp only [bind_eq_bindM, bindM_app]
  rcases hp : setupParse input w with ⟨r, wp⟩
  have hwp : wp = w := by have := si_setupParse input w; rw [hp] at this; exact this
  subst hwp
  cases r with
  | error e => left; rfl
  | ok c =>
      simp only [modifyW_app]
      have hrun := setupStep1_run { wp with ignorePermissions := true }
      cases hfk : wp.flags.fileOk with
      | false =>
          rw [if_neg (by simp [hfk])] at hrun
          left
          rw [hrun]
      | true =>
          rw [if_pos (show ({ wp with ignorePermissions := true } : World).flags.fileOk = true from hfk)] at hrun
          right
          rw [hrun]
          exact pf_bindM (setupSteps2to9 c) (fun _ => pureM c)
            (pf_setupSteps2to9 c) (fun _ => pf_pureM c) _

/-- `setup_company` ends in the same state as its `try` body. -/
theorem setup_company_state (input : ConfigInput) (w : World) :
    (setup_company input w).2 = (setupBody input w).2 := by
  unfold setup_company tryCatchM
  cases hb : setupBody input w with
  | mk r w' => cases r <;> rfl

/-- The final existence check mutates nothing. -/
theorem setupBody_state (input : ConfigInput) (w : World) :
    (setupBody input w).2 = (setupPrefix input w).2 := by
  unfold setupBody
  simp only [bind_eq_bindM, bindM_app]
  cases hb : setupPrefix input w with
  | mk r w' => cases r <;> rfl

/-- **C10.** Frame property on `site_config.json`: `set_plan_limits`
modifies only the `saas_plan_limits` key and `setup_company` only the
`setup_complete` key; every other key of the file is preserved unchanged,
on every execution path. -/
theorem site_config_frame_property :
    (∀ (limits : List (String × PyVal)) (w : World) (k : String),
       k ≠ "saas_plan_limits" →
       lookupKey ((set_plan_limits limits w).2).file k = lookupKey w.file k) ∧
    (∀ (input : ConfigInput) (w : World) (k : String),
       k ≠ "setup_complete" →
       lookupKey ((setup_company input w).2).file k = lookupKey w.file k) := by
  constructor
  · intro limits w k hk
    cases hc : w.flags.cacheOk with
    | false => rw [set_plan_limits_run_badcache limits w hc]
    | true =>
        cases hf : w.flags.fileOk with
        | false => rw [set_plan_limits_run_badfile limits w hc hf]
        | true =>
            rw [set_plan_limits_run_ok limits w hc hf]
            exact lookupKey_setKey_ne _ _ _ _ hk
  · intro input w k hk
    rw [setup_company_state, setupBody_state]
    rcases setupPrefix_file input w with h | h
    · rw [h]
    · rw [h]
      exact lookupKey_setKey_ne _ _ _ _ hk

/-- Splitting a successful `bindM` run into its two stages. -/
theorem bindM_ok (m : M α) (k : α → M β) (w : World) (b : β) (w2 : World)
    (h : bindM m k w = (Except.ok b, w2)) :
    ∃ a w1, m w = (Except.ok a, w1) ∧ k a w1 = (Except.ok b, w2) := by
  unfold bindM at h
  rcases hm : m w with ⟨r, w1⟩
  rw [hm] at h
  cases r with
  | ok a => exact ⟨a, w1, rfl, h⟩
  | error e => simp at h

/-- If the pre-final part of `setup_company` succeeds with config `c`,
then the parse stage produced exactly `c`. -/
theorem setupPrefix_parse (input : ConfigInput) (w : World) (c : SetupCfg) (w2 : World)
    (h : setupPrefix input w = (Except.ok c, w2)) :
    (setupParse input w).1 = Except.ok c := by
  unfold setupPrefix at h
  simp only [bind_eq_bindM] at h
  obtain ⟨c0, wp, hp, h⟩ := bindM_ok _ _ _ _ _ h
  obtain ⟨u1, wm, hm, h⟩ := bindM_ok _ _ _ _ _ h
  obtain ⟨u2, w1, h1, h⟩ := bindM_ok _ _ _ _ _ h
  obtain ⟨u3, w3, h3, h⟩ := bindM_ok _ _ _ _ _ h
  simp [pureM] at h
  rw [hp]
  simp [h.1]

/-- **C6 (counterexample).** The claimed "if and only if" fails
right-to-left: with a healthy world except that the Fiscal Year insert
(step 5) raises, `setup_company` returns a failure dict, yet the Company
record created in step 4 exists at the end of the run. -/
theorem setup_company_postcondition_counterexample :
    (setup_company goodInput wFYFail).1 =
      Except.ok (failDict "ValidationError: fiscal year insert failed") ∧
    ((setup_company goodInput wFYFail).2).companies.contains (PyVal.str "Acme Corp") = true := by
  decide

/-- **C6 (amended).** `setup_company` returns a success dict only if the
Company record exists at the end of the run; and whenever the body runs
to completion without an exception, the result is exactly the final
existence check: success when the Company exists, and a failure dict
(with no exception raised) when all steps completed but the record is
absent.  The unrestricted "if and only if" fails only when an exception
strikes after the Company was created — see the counterexample. -/
theorem setup_company_success_postcondition_amended :
    (∀ (input : ConfigInput) (w : World) (c : SetupCfg) (w2 : World),
       setupPrefix input w = (Except.ok c, w2) →
       setup_company input w =
         (Except.ok (setupResultDict (w2.companies.contains c.companyName) c.companyName),
          w2)) ∧
    (∀ (input : ConfigInput) (w : World) (c : SetupCfg) (d : List (String × SCVal)),
       (setupParse input w).1 = Except.ok c →
       (setup_company input w).1 = Except.ok d →
       lookupKey d "success" = some (SCVal.prim (PyVal.bool true)) →
       ((setup_company input w).2).companies.contains c.companyName = true) := by
  have hbodyeq : ∀ (input : ConfigInput) (w : World) (c : SetupCfg) (w2 : World),
      setupPrefix input w = (Except.ok c, w2) →
      setupBody input w =
        (Except.ok (setupResultDict (w2.companies.contains c.companyName) c.companyName),
         w2) := by
    intro input w c w2 hpre
    show bindM (setupPrefix input) (fun c => setupFinal c.companyName) w = _
    rw [bindM_app, hpre]
    rfl
  have hpart1 : ∀ (input : ConfigInput) (w : World) (c : SetupCfg) (w2 : World),
      setupPrefix input w = (Except.ok c, w2) →
      setup_company input w =
        (Except.ok (setupResultDict (w2.companies.contains c.companyName) c.companyName),
         w2) := by
    intro input w c w2 hpre
    unfold setup_company tryCatchM
    rw [hbodyeq input w c w2 hpre]
  refine ⟨hpart1, ?_⟩
  intro input w c d hparse hr hs
  cases hpre : setupPrefix input w with
  | mk r w2 =>
      cases r with
      | error e =>
          have hbody : setupBody input w = (Except.error e, w2) := by
            show bindM (setupPrefix input) (fun c => setupFinal c.companyName) w = _
            rw [bindM_app, hpre]
          have hsc : setup_company input w = (Except.ok (failDict e.toMsg), w2) := by
            unfold setup_company tryCatchM
            rw [hbody]
            rfl
          rw [hsc] at hr
          simp at hr
          subst hr
          simp [failDict, lookupKey] at hs
      | ok c' =>
          obtain rfl : c' = c := by
            have h1 := setupPrefix_parse input w c' w2 hpre
            rw [hparse] at h1
            injection h1 with h1
            exact h1.symm
          have hsc := hpart1 input w c' w2 hpre
          rw [hsc] at hr
          simp at hr
          subst hr
          rw [hsc]
          cases hbb : w2.companies.contains c'.companyName with
          | true => rfl
          | false =>
              exfalso
              simp at hbb
              simp [setupResultDict, lookupKey, hbb] at hs

/-- Witness for C6 (amended): a full healthy run creates the company and
the success postcondition holds. -/
theorem setup_company_success_postcondition_amended_witness :
    ((setup_company goodInput baseWorld).2).companies.contains (PyVal.str "Acme Corp") = true :=
  setup_company_success_postcondition_amended.2 goodInput baseWorld
    ⟨PyVal.str "Acme Corp", PyVal.str "AC", PyVal.str "India", PyVal.str "INR",
     PyVal.str "Standard", PyVal.str "2026-2027", PyVal.str "2026-04-01",
     PyVal.str "2027-03-31"⟩
    ((setup_company goodInput baseWorld).1.toOption.getD [])
    (by rfl) (by rfl) (by rfl)

/-- Witness for C10 at the concrete key `db_name`. -/
theorem site_config_frame_property_witness :
    lookupKey ((set_plan_limits quotaDict wBadFile).2).file "db_name" =
      lookupKey wBadFile.file "db_name" ∧
    lookupKey ((setup_company goodInput wCompanyFail).2).file "db_name" =
      lookupKey wCompanyFail.file "db_name" :=
  ⟨site_config_frame_property.1 quotaDict wBadFile "db_name" (by decide),
   site_config_frame_property.2 goodInput wCompanyFail "db_name" (by decide)⟩

end TenantBootstrap
